import Mathlib
set_option maxRecDepth 8000
/-!
Shallow embedding of the B+ tree core and the parking operations of
`smart_parking_system.c` (Smart-Parking-Lot-System).

The C code is pointer-based, so nodes live in a heap (`List (BNode K V)`)
addressed by `Nat` ids; pointer equality becomes id equality, `NULL`
becomes a failed lookup, and the `union` of the C node is flattened into
one structure whose unused fields stay empty.  C `int` keys become `Int`,
`char*` keys become `String`; `double` fields are modelled as `Rat`.
Loops over pointers carry explicit fuel; every public entry point passes
`s.nodes.length + 1`, which bounds any acyclic traversal of the heap.
-/

/-- Insert an element at position `p` of a list (appending at the end when
`p` exceeds the length).  This is the effect of the shift-right loops of
`insertIntoLeaf` / `insertIntoInternal` once the insertion index is fixed. -/
def insAt {α : Type} : Nat → α → List α → List α
  | 0, a, l => a :: l
  | _ + 1, a, [] => [a]
  | p + 1, a, x :: l => x :: insAt p a l

/-- Embeds `BPlusTreeNode_st`: `is_leaf`, the first `n` slots of the `keys` array,
and the union members — `data_pointers` (leaf), `C` (internal),
`next`/`prev` (leaf).  Unused members are empty for the other variant. -/
structure BNode (K V : Type) where
  isLeaf : Bool
  keys : List K
  vals : List V
  children : List Nat
  next : Option Nat
  prev : Option Nat
  deriving Repr, DecidableEq

/-- Embeds `BPlusTree_st`: minimum degree `t`, the node heap, the `root` pointer and
the `first_leaf` pointer.  The comparator of the C struct is the `LinearOrder`
on `K`; `free_key`/`free_data` manage memory only and have no model. -/
structure BState (K V : Type) where
  t : Nat
  nodes : List (BNode K V)
  root : Nat
  firstLeaf : Nat
  deriving Repr, DecidableEq

def getNode {K V : Type} (s : BState K V) (i : Nat) : Option (BNode K V) :=
  s.nodes[i]?

def setNode {K V : Type} (s : BState K V) (i : Nat) (nd : BNode K V) : BState K V :=
  { s with nodes := s.nodes.set i nd }

/-- Embeds `createBPlusTreeNode`: allocation returns the fresh id `s.nodes.length`. -/
def allocNode {K V : Type} (s : BState K V) (nd : BNode K V) : BState K V × Nat :=
  ({ s with nodes := s.nodes ++ [nd] }, s.nodes.length)

def emptyLeaf {K V : Type} : BNode K V :=
  { isLeaf := true, keys := [], vals := [], children := [], next := none, prev := none }

/-- Embeds `createBPlusTree`: rejects `t < 2`, otherwise a tree whose root is a fresh
empty leaf which is also `first_leaf`. -/
def createBPlusTree (K V : Type) (t : Nat) : Option (BState K V) :=
  if t < 2 then none
  else some { t := t, nodes := [emptyLeaf], root := 0, firstLeaf := 0 }

/-- The same initial state without the `Option`, for building concrete runs. -/
def mkTree (K V : Type) (t : Nat) : BState K V :=
  { t := t, nodes := [emptyLeaf], root := 0, firstLeaf := 0 }

/-- The descent index of `findLeaf`: the C loop
`while (i < n && compare(key, keys[i]) >= 0) i++;` stops at the first
separator strictly greater than the key. -/
def descendIdx {K : Type} [LinearOrder K] (key : K) (keys : List K) : Nat :=
  keys.findIdx (fun x => key < x)

/-- Embeds `findLeaf`, with fuel for the pointer walk.  Returns `none` where the C
function returns `NULL` (missing child / non-leaf end of walk). -/
def findLeafAux {K V : Type} [LinearOrder K] (s : BState K V) (key : K) :
    Nat → Nat → Option Nat
  | 0, _ => none
  | fuel + 1, nid =>
    match getNode s nid with
    | none => none
    | some nd =>
      if nd.isLeaf then some nid
      else
        match nd.children[descendIdx key nd.keys]? with
        | none => none
        | some c => findLeafAux s key fuel c

def findLeaf {K V : Type} [LinearOrder K] (s : BState K V) (key : K) : Option Nat :=
  findLeafAux s key (s.nodes.length + 1) s.root

/-- Embeds `searchBPlusTree`: descend with `findLeaf`, then linear-scan the leaf for
an entry whose key compares equal; `none` is the C `NULL` (NotFound). -/
def searchBPlusTree {K V : Type} [LinearOrder K] (s : BState K V) (key : K) : Option V :=
  match findLeaf s key with
  | none => none
  | some lid =>
    match getNode s lid with
    | none => none
    | some nd =>
      match nd.keys.findIdx? (fun x => key = x) with
      | none => none
      | some i => nd.vals[i]?

/-- The insertion position of the shift-right loop
`while (i >= 0 && compare(key, keys[i]) < 0) { shift; i--; }`:
everything strictly greater than `key` at the tail is shifted. -/
def insertPosFromRight {K : Type} [LinearOrder K] (key : K) (keys : List K) : Nat :=
  keys.length - (keys.reverse.takeWhile (fun x => key < x)).length

/-- Embeds `insertIntoLeaf`.  The C bounds checks make the call a no-op whenever the
leaf is already at capacity `2t-1`; otherwise the new key/value pair lands at
the sorted position. -/
def insertIntoLeaf {K V : Type} [LinearOrder K] (s : BState K V) (lid : Nat)
    (key : K) (v : V) : BState K V :=
  match getNode s lid with
  | none => s
  | some nd =>
    if nd.isLeaf then
      if nd.keys.length < 2 * s.t - 1 then
        let p := insertPosFromRight key nd.keys
        setNode s lid { nd with keys := insAt p key nd.keys, vals := insAt p v nd.vals }
      else s
    else s

/-- Embeds `splitLeafNode`.  Called on a full leaf (`n = 2t-1`): the first `t`
entries stay, the last `t-1` move to a fresh leaf spliced into the chain
right after the original, and a copy of the new leaf's first key
(`keys[split_point]`) is handed back to be pushed up. -/
def splitLeafNode {K V : Type} (s : BState K V) (lid : Nat) :
    BState K V × Option (K × Nat) :=
  match getNode s lid with
  | none => (s, none)
  | some nd =>
    if nd.isLeaf then
      match nd.keys[s.t]? with
      | none => (s, none)
      | some pushKey =>
        let newId := s.nodes.length
        let s1 := (allocNode s
          { isLeaf := true, keys := nd.keys.drop s.t, vals := nd.vals.drop s.t,
            children := [], next := nd.next, prev := some lid }).1
        let s2 := setNode s1 lid
          { nd with keys := nd.keys.take s.t, vals := nd.vals.take s.t, next := some newId }
        let s3 :=
          match nd.next with
          | none => s2
          | some nxt =>
            match getNode s2 nxt with
            | none => s2
            | some nnd => setNode s2 nxt { nnd with prev := some newId }
        (s3, some (pushKey, newId))
    else (s, none)

/-- Embeds `splitInternalNode`.  Called on a full internal node (`n = 2t-1`,
`2t` children): the key at `t-1` is removed and handed back to be pushed up,
keys from `t` on and children from `t` on move to a fresh internal node,
`t-1` keys and `t` children remain. -/
def splitInternalNode {K V : Type} (s : BState K V) (nid : Nat) :
    BState K V × Option (K × Nat) :=
  match getNode s nid with
  | none => (s, none)
  | some nd =>
    if nd.isLeaf then (s, none)
    else
      match nd.keys[s.t - 1]? with
      | none => (s, none)
      | some pushKey =>
        let newId := s.nodes.length
        let s1 := (allocNode s
          { isLeaf := false, keys := nd.keys.drop s.t, vals := [],
            children := nd.children.drop s.t, next := none, prev := none }).1
        let s2 := setNode s1 nid
          { nd with keys := nd.keys.take (s.t - 1), children := nd.children.take s.t }
        (s2, some (pushKey, newId))

/-- Embeds `insertIntoInternal`: insert a separator key and its right child into an
internal node with spare capacity (the C bounds checks make it a no-op on a
full node). -/
def insertIntoInternal {K V : Type} [LinearOrder K] (s : BState K V) (nid : Nat)
    (key : K) (rightChild : Nat) : BState K V :=
  match getNode s nid with
  | none => s
  | some nd =>
    if nd.isLeaf then s
    else
      if nd.keys.length < 2 * s.t - 1 then
        let p := insertPosFromRight key nd.keys
        setNode s nid
          { nd with keys := insAt p key nd.keys, children := insAt (p + 1) rightChild nd.children }
      else s

/-- The parent-search loop of `insertIntoParent`: re-descend from the root
using the separator's key ordering, matching child-pointer identity. -/
def findParentAux {K V : Type} [LinearOrder K] (s : BState K V) (key : K)
    (childId : Nat) : Nat → Nat → Option Nat
  | 0, _ => none
  | fuel + 1, cur =>
    match getNode s cur with
    | none => none
    | some nd =>
      if nd.isLeaf then none
      else
        let i := descendIdx key nd.keys
        if nd.children[i]? = some childId then some cur
        else if 0 < i ∧ nd.children[i - 1]? = some childId then some cur
        else
          match nd.children[i]? with
          | none => none
          | some c => findParentAux s key childId fuel c

/-- Embeds `insertIntoParent`, recursion on fuel.  Root case: fresh internal root
holding the one separator with the old root as child 0 and the new node as
child 1.  Otherwise find the parent; if it has room use `insertIntoInternal`;
if it is full, split it — the C code builds merged temp arrays of the
`2t` keys / `2t+1` children here and then never reads them, so the pending
separator and right child are dropped — and recurse with the median. -/
def insertIntoParentAux {K V : Type} [LinearOrder K] :
    Nat → BState K V → Nat → K → Nat → BState K V
  | 0, s, _, _, _ => s
  | fuel + 1, s, nid, key, rightId =>
    if s.root = nid then
      let res := allocNode s
        { isLeaf := false, keys := [key], vals := [], children := [nid, rightId],
          next := none, prev := none }
      { res.1 with root := res.2 }
    else
      match findParentAux s key nid (s.nodes.length + 1) s.root with
      | none => s
      | some pid =>
        match getNode s pid with
        | none => s
        | some pnd =>
          if pnd.keys.length < 2 * s.t - 1 then
            insertIntoInternal s pid key rightId
          else
            match splitInternalNode s pid with
            | (s1, none) => s1
            | (s1, some pr) => insertIntoParentAux fuel s1 pid pr.1 pr.2

inductive InsertResult where
  | ok
  | duplicateKey
  | failed
  deriving Repr, DecidableEq

/-- Embeds `insertBPlusTree`.  Empty-root shortcut, descent, duplicate check in the
target leaf, then either the in-place insert or the split path.  On the split
path the C code builds the merged `2t`-entry temp arrays and never reads
them: the new key/value pair is freed with the temporaries and is inserted
nowhere.  (The C recreates a `NULL` root; after `createBPlusTree` the root
id is always allocated, so a dangling root is reported as failed here.) -/
def insertBPlusTree {K V : Type} [LinearOrder K] (s : BState K V) (key : K) (v : V) :
    BState K V × InsertResult :=
  match getNode s s.root with
  | none => (s, .failed)
  | some rootNd =>
    if rootNd.keys.length = 0 ∧ rootNd.isLeaf then
      (setNode s s.root { rootNd with keys := [key], vals := [v] }, .ok)
    else
      match findLeaf s key with
      | none => (s, .failed)
      | some lid =>
        match getNode s lid with
        | none => (s, .failed)
        | some leafNd =>
          if leafNd.keys.any (fun x => key = x) then (s, .duplicateKey)
          else if leafNd.keys.length < 2 * s.t - 1 then
            (insertIntoLeaf s lid key v, .ok)
          else
            match splitLeafNode s lid with
            | (s1, none) => (s1, .failed)
            | (s1, some pr) =>
              (insertIntoParentAux (s1.nodes.length + 1) s1 lid pr.1 pr.2, .ok)

/-- Fold a list of inserts over a state, keeping only the states. -/
def runInserts {K V : Type} [LinearOrder K] (s : BState K V) (l : List (K × V)) :
    BState K V :=
  l.foldl (fun st kv => (insertBPlusTree st kv.1 kv.2).1) s

/-- The key/value pairs of a leaf, in slot order. -/
def entriesOf {K V : Type} (nd : BNode K V) : List (K × V) :=
  nd.keys.zip nd.vals

/-- The leaf-chain walk shared by `collectVehiclesSorted` / `collectSpacesSorted`
(sortType 0) and `findSpaceInRangeFromLeaves`: follow `next` from a node,
taking the entries of leaf nodes and skipping nodes that fail the
corrupted-leaf check. -/
def chainEntriesAux {K V : Type} (s : BState K V) : Nat → Option Nat → List (K × V)
  | 0, _ => []
  | _ + 1, none => []
  | fuel + 1, some nid =>
    match getNode s nid with
    | none => []
    | some nd =>
      (if nd.isLeaf then entriesOf nd else []) ++ chainEntriesAux s fuel nd.next

/-- Embeds `scanAscending`: the full leaf-chain traversal from `first_leaf`. -/
def scanAscending {K V : Type} (s : BState K V) : List (K × V) :=
  chainEntriesAux s (s.nodes.length + 1) (some s.firstLeaf)

def scanKeys {K V : Type} (s : BState K V) : List K :=
  (scanAscending s).map Prod.fst

/-- Mutation of a stored value through the pointer returned by search
(`v->field = ...` in C): replace the value of the first equal-keyed entry of
the target leaf. -/
def updateData {K V : Type} [LinearOrder K] (s : BState K V) (key : K) (f : V → V) :
    BState K V :=
  match findLeaf s key with
  | none => s
  | some lid =>
    match getNode s lid with
    | none => s
    | some nd =>
      match nd.keys.findIdx? (fun x => key = x) with
      | none => s
      | some i =>
        match nd.vals[i]? with
        | none => s
        | some oldv => setNode s lid { nd with vals := nd.vals.set i (f oldv) }

/-- Height of the structure hanging from a node, with fuel (a leaf has
height 1). -/
def heightAux {K V : Type} (s : BState K V) : Nat → Nat → Nat
  | 0, _ => 0
  | fuel + 1, nid =>
    match getNode s nid with
    | none => 0
    | some nd =>
      if nd.isLeaf then 1
      else 1 + (nd.children.map (heightAux s fuel)).foldr max 0

/-- Every child pointer stored in the heap is a valid id. -/
def ChildBounded {K V : Type} (s : BState K V) : Prop :=
  ∀ nd ∈ s.nodes, ∀ c ∈ nd.children, c < s.nodes.length

/-- Every leaf pairs its keys 1:1 with values (the C invariant that `keys`
and `data_pointers` are moved in lockstep). -/
def PairedLeaves {K V : Type} (s : BState K V) : Prop :=
  ∀ nd ∈ s.nodes, nd.isLeaf = true → nd.keys.length = nd.vals.length

/-- Entries contributed by one heap slot: a leaf's entries, nothing for an
internal node. -/
def leafEntries {K V : Type} (nd : BNode K V) : List (K × V) :=
  if nd.isLeaf then nd.keys.zip nd.vals else []

/-- All key/value entries stored anywhere in the heap's leaves. -/
def allEntries {K V : Type} (s : BState K V) : List (K × V) :=
  (s.nodes.map leafEntries).flatten

def leafKeys {K V : Type} (nd : BNode K V) : List K :=
  if nd.isLeaf then nd.keys else []

/-- All keys stored anywhere in the heap's leaves. -/
def allLeafKeys {K V : Type} (s : BState K V) : List K :=
  (s.nodes.map leafKeys).flatten

/-! ## Parking domain -/

inductive MembershipType where
  | noMembership
  | premium
  | gold
  deriving Repr, DecidableEq

/-- Embeds `Vehicle` (C `double` fields as `Rat`, `time_t` as `Int`). -/
structure Vehicle where
  vehicle_number : String
  owner_name : String
  arrival_time : Int
  last_departure_time : Int
  membership : MembershipType
  total_parking_hours : Rat
  num_parkings : Int
  total_amount_paid : Rat
  current_parking_space_id : Int
  deriving Repr, DecidableEq

/-- Embeds `ParkingSpace` (C `double` revenue as `Rat`). -/
structure ParkingSpace where
  space_id : Int
  status : Int
  occupancy_count : Int
  total_revenue : Rat
  parked_vehicle_num : String
  deriving Repr, DecidableEq

/-- Embeds `updateMembership`: tier from accumulated hours. -/
def updateMembership (v : Vehicle) : Vehicle :=
  if v.total_parking_hours ≥ 200 then { v with membership := .gold }
  else if v.total_parking_hours ≥ 100 then { v with membership := .premium }
  else { v with membership := .noMembership }

/-- Embeds `calculateParkingFee`: 100 for the first 3 hours, 50 per started extra
hour, 10% off for premium/gold. -/
def calculateParkingFee (hours : Rat) (membership : MembershipType) : Rat :=
  let h := if hours < 0 then 0 else hours
  let fee := if h ≤ 3 then (100 : Rat) else 100 + (⌈h - 3⌉ : Rat) * 50
  if membership = .premium ∨ membership = .gold then fee * (9 / 10) else fee

/-- The inner loop of `findSpaceInRangeFromLeaves` over one leaf's entries:
`some r` means the C function returns `r` from inside the loop (`r = -1` for
the early stop past `end_id`), `none` means fall through to the next leaf. -/
def scanLeafForSpace (lo hi : Int) : List (Int × ParkingSpace) → Option Int
  | [] => none
  | (k, ps) :: rest =>
    if lo ≤ k ∧ k ≤ hi ∧ ps.status = 0 then some ps.space_id
    else if hi < k then some (-1)
    else scanLeafForSpace lo hi rest

/-- The leaf-chain walk of `findSpaceInRangeFromLeaves` (fuel as elsewhere;
nodes failing the corrupted-leaf check are skipped). -/
def findSpaceAux (s : BState Int ParkingSpace) (lo hi : Int) :
    Nat → Option Nat → Int
  | 0, _ => -1
  | _ + 1, none => -1
  | fuel + 1, some nid =>
    match getNode s nid with
    | none => -1
    | some nd =>
      if nd.isLeaf then
        match scanLeafForSpace lo hi (entriesOf nd) with
        | some r => r
        | none => findSpaceAux s lo hi fuel nd.next
      else findSpaceAux s lo hi fuel nd.next

/-- Embeds `findSpaceInRangeFromLeaves`: first free space with key in
`[start_id, end_id]` along the leaf chain, stopping early once a visited key
exceeds `end_id`; `-1` when none. -/
def findSpaceInRangeFromLeaves (s : BState Int ParkingSpace) (startId endId : Int) : Int :=
  findSpaceAux s startId endId (s.nodes.length + 1) (some s.firstLeaf)

/-- The same first-match scan over a flat entry sequence (the chain walk and
the per-leaf loops fused); used to relate the code to the naive filter. -/
def findFlatSpace (lo hi : Int) : List (Int × ParkingSpace) → Int
  | [] => -1
  | (k, ps) :: rest =>
    if lo ≤ k ∧ k ≤ hi ∧ ps.status = 0 then ps.space_id
    else if hi < k then -1
    else findFlatSpace lo hi rest

/-- The naive computation of the spec: filter the full `scanAscending`
sequence to `lo ≤ key ≤ hi` and return the first free entry's space id. -/
def naiveFindSpace (entries : List (Int × ParkingSpace)) (lo hi : Int) : Option Int :=
  ((entries.filter (fun e => lo ≤ e.1 ∧ e.1 ≤ hi)).find? (fun e => e.2.status = 0)).map
    (fun e => e.2.space_id)

/-- Embeds `findAvailableSpace` (`MAX_SPACES = 50`): GOLD tries `[1,50]`, then
GOLD/PREMIUM try `[11,50]`, then everyone tries `[21,50]`. -/
def findAvailableSpace (s : BState Int ParkingSpace) (membership : MembershipType) : Int :=
  let sid1 : Int :=
    if membership = .gold then findSpaceInRangeFromLeaves s 1 50 else -1
  let sid2 : Int :=
    if sid1 = -1 ∧ (membership = .gold ∨ membership = .premium) then
      findSpaceInRangeFromLeaves s 11 50
    else sid1
  if sid2 = -1 then findSpaceInRangeFromLeaves s 21 50 else sid2

/-- The state-mutating core of `handleVehicleEntry` (console I/O dropped;
`time(NULL)` is the `now` parameter).  Existing vehicle: allocate by its
membership, occupy the space, record arrival.  New vehicle: allocate with
the no-membership policy, occupy, insert the fresh record. -/
def handleVehicleEntry (vt : BState String Vehicle) (st : BState Int ParkingSpace)
    (vnum owner : String) (now : Int) :
    BState String Vehicle × BState Int ParkingSpace :=
  match searchBPlusTree vt vnum with
  | some v =>
    if v.current_parking_space_id ≠ -1 then (vt, st)
    else
      let sid := findAvailableSpace st v.membership
      if sid = -1 then (vt, st)
      else
        match searchBPlusTree st sid with
        | none => (vt, st)
        | some ps =>
          if ps.status = 0 then
            let st1 := updateData st sid
              (fun p => { p with status := 1, parked_vehicle_num := v.vehicle_number })
            let vt1 := updateData vt vnum
              (fun w => { w with current_parking_space_id := sid, arrival_time := now,
                                 last_departure_time := 0 })
            (vt1, st1)
          else (vt, st)
  | none =>
    let sid := findAvailableSpace st .noMembership
    if sid = -1 then (vt, st)
    else
      match searchBPlusTree st sid with
      | none => (vt, st)
      | some ps =>
        if ps.status = 0 then
          let newV : Vehicle :=
            { vehicle_number := vnum, owner_name := owner, arrival_time := now,
              last_departure_time := 0, membership := .noMembership,
              total_parking_hours := 0, num_parkings := 0, total_amount_paid := 0,
              current_parking_space_id := sid }
          let st1 := updateData st sid
            (fun p => { p with status := 1, parked_vehicle_num := vnum })
          let vt1 := (insertBPlusTree vt vnum newV).1
          (vt1, st1)
        else (vt, st)

/-- The state-mutating core of `handleVehicleExit` (`time(NULL)` is the
`departure` parameter).  Stats and membership are updated on the stored
vehicle, the fee is added, the vehicle is marked not parked, and the space —
if its record is found — is freed with its counters bumped.  No entry leaves
either index. -/
def handleVehicleExit (vt : BState String Vehicle) (st : BState Int ParkingSpace)
    (vnum : String) (departure : Int) :
    BState String Vehicle × BState Int ParkingSpace :=
  match searchBPlusTree vt vnum with
  | none => (vt, st)
  | some v =>
    if v.current_parking_space_id = -1 ∨ v.arrival_time = 0 then (vt, st)
    else
      let durSeconds : Rat := max 0 ((departure : Rat) - (v.arrival_time : Rat))
      let durHours : Rat := durSeconds / 3600
      let v1 := updateMembership
        { v with total_parking_hours := v.total_parking_hours + durHours,
                 num_parkings := v.num_parkings + 1,
                 last_departure_time := departure }
      let fee := calculateParkingFee durHours v1.membership
      let v2 := { v1 with total_amount_paid := v1.total_amount_paid + fee }
      let sid := v.current_parking_space_id
      let v3 := { v2 with current_parking_space_id := -1, arrival_time := 0 }
      let vt1 := updateData vt vnum (fun _ => v3)
      let st1 :=
        match searchBPlusTree st sid with
        | none => st
        | some _ =>
          updateData st sid
            (fun ps => { ps with status := 0, occupancy_count := ps.occupancy_count + 1,
                                 total_revenue := ps.total_revenue + fee,
                                 parked_vehicle_num := "" })
      (vt1, st1)

/-- The keys 1..15 with values 10,20,...,150: the insert sequence of the
order-2 counterexample run. -/
def c5Inserts : List (Int × Int) :=
  [(1, 10), (2, 20), (3, 30), (4, 40), (5, 50), (6, 60), (7, 70), (8, 80),
   (9, 90), (10, 100), (11, 110), (12, 120), (13, 130), (14, 140), (15, 150)]

def c5s1 : BState Int Int :=
  { t := 2, root := 0, firstLeaf := 0,
    nodes := [⟨true, [1], [10], [], none, none⟩] }

def c5s2 : BState Int Int :=
  { t := 2, root := 0, firstLeaf := 0,
    nodes := [⟨true, [1, 2], [10, 20], [], none, none⟩] }

def c5s3 : BState Int Int :=
  { t := 2, root := 0, firstLeaf := 0,
    nodes := [⟨true, [1, 2, 3], [10, 20, 30], [], none, none⟩] }

def c5s4 : BState Int Int :=
  { t := 2, root := 2, firstLeaf := 0,
    nodes := [⟨true, [1, 2], [10, 20], [], (some 1), none⟩,
              ⟨true, [3], [30], [], none, (some 0)⟩,
              ⟨false, [3], [], [0, 1], none, none⟩] }

def c5s5 : BState Int Int :=
  { t := 2, root := 2, firstLeaf := 0,
    nodes := [⟨true, [1, 2], [10, 20], [], (some 1), none⟩,
              ⟨true, [3, 5], [30, 50], [], none, (some 0)⟩,
              ⟨false, [3], [], [0, 1], none, none⟩] }

def c5s6 : BState Int Int :=
  { t := 2, root := 2, firstLeaf := 0,
    nodes := [⟨true, [1, 2], [10, 20], [], (some 1), none⟩,
              ⟨true, [3, 5, 6], [30, 50, 60], [], none, (some 0)⟩,
              ⟨false, [3], [], [0, 1], none, none⟩] }

def c5s7 : BState Int Int :=
  { t := 2, root := 2, firstLeaf := 0,
    nodes := [⟨true, [1, 2], [10, 20], [], (some 1), none⟩,
              ⟨true, [3, 5], [30, 50], [], (some 3), (some 0)⟩,
              ⟨false, [3, 6], [], [0, 1, 3], none, none⟩,
              ⟨true, [6], [60], [], none, (some 1)⟩] }

def c5s8 : BState Int Int :=
  { t := 2, root := 2, firstLeaf := 0,
    nodes := [⟨true, [1, 2], [10, 20], [], (some 1), none⟩,
              ⟨true, [3, 5], [30, 50], [], (some 3), (some 0)⟩,
              ⟨false, [3, 6], [], [0, 1, 3], none, none⟩,
              ⟨true, [6, 8], [60, 80], [], none, (some 1)⟩] }

def c5s9 : BState Int Int :=
  { t := 2, root := 2, firstLeaf := 0,
    nodes := [⟨true, [1, 2], [10, 20], [], (some 1), none⟩,
              ⟨true, [3, 5], [30, 50], [], (some 3), (some 0)⟩,
              ⟨false, [3, 6], [], [0, 1, 3], none, none⟩,
              ⟨true, [6, 8, 9], [60, 80, 90], [], none, (some 1)⟩] }

def c5s10 : BState Int Int :=
  { t := 2, root := 2, firstLeaf := 0,
    nodes := [⟨true, [1, 2], [10, 20], [], (some 1), none⟩,
              ⟨true, [3, 5], [30, 50], [], (some 3), (some 0)⟩,
              ⟨false, [3, 6, 9], [], [0, 1, 3, 4], none, none⟩,
              ⟨true, [6, 8], [60, 80], [], (some 4), (some 1)⟩,
              ⟨true, [9], [90], [], none, (some 3)⟩] }

def c5s11 : BState Int Int :=
  { t := 2, root := 2, firstLeaf := 0,
    nodes := [⟨true, [1, 2], [10, 20], [], (some 1), none⟩,
              ⟨true, [3, 5], [30, 50], [], (some 3), (some 0)⟩,
              ⟨false, [3, 6, 9], [], [0, 1, 3, 4], none, none⟩,
              ⟨true, [6, 8], [60, 80], [], (some 4), (some 1)⟩,
              ⟨true, [9, 11], [90, 110], [], none, (some 3)⟩] }

def c5s12 : BState Int Int :=
  { t := 2, root := 2, firstLeaf := 0,
    nodes := [⟨true, [1, 2], [10, 20], [], (some 1), none⟩,
              ⟨true, [3, 5], [30, 50], [], (some 3), (some 0)⟩,
              ⟨false, [3, 6, 9], [], [0, 1, 3, 4], none, none⟩,
              ⟨true, [6, 8], [60, 80], [], (some 4), (some 1)⟩,
              ⟨true, [9, 11, 12], [90, 110, 120], [], none, (some 3)⟩] }

def c5s13 : BState Int Int :=
  { t := 2, root := 7, firstLeaf := 0,
    nodes := [⟨true, [1, 2], [10, 20], [], (some 1), none⟩,
              ⟨true, [3, 5], [30, 50], [], (some 3), (some 0)⟩,
              ⟨false, [3], [], [0, 1], none, none⟩,
              ⟨true, [6, 8], [60, 80], [], (some 4), (some 1)⟩,
              ⟨true, [9, 11], [90, 110], [], (some 5), (some 3)⟩,
              ⟨true, [12], [120], [], none, (some 4)⟩,
              ⟨false, [9], [], [3, 4], none, none⟩,
              ⟨false, [6], [], [2, 6], none, none⟩] }

def c5s14 : BState Int Int :=
  { t := 2, root := 7, firstLeaf := 0,
    nodes := [⟨true, [1, 2], [10, 20], [], (some 1), none⟩,
              ⟨true, [3, 5], [30, 50], [], (some 3), (some 0)⟩,
              ⟨false, [3], [], [0, 1], none, none⟩,
              ⟨true, [6, 8], [60, 80], [], (some 4), (some 1)⟩,
              ⟨true, [9, 11, 14], [90, 110, 140], [], (some 5), (some 3)⟩,
              ⟨true, [12], [120], [], none, (some 4)⟩,
              ⟨false, [9], [], [3, 4], none, none⟩,
              ⟨false, [6], [], [2, 6], none, none⟩] }

def c5s15 : BState Int Int :=
  { t := 2, root := 7, firstLeaf := 0,
    nodes := [⟨true, [1, 2], [10, 20], [], (some 1), none⟩,
              ⟨true, [3, 5], [30, 50], [], (some 3), (some 0)⟩,
              ⟨false, [3], [], [0, 1], none, none⟩,
              ⟨true, [6, 8], [60, 80], [], (some 4), (some 1)⟩,
              ⟨true, [9, 11], [90, 110], [], (some 8), (some 3)⟩,
              ⟨true, [12], [120], [], none, (some 8)⟩,
              ⟨false, [9, 14], [], [3, 4, 8], none, none⟩,
              ⟨false, [6], [], [2, 6], none, none⟩,
              ⟨true, [14], [140], [], (some 5), (some 4)⟩] }

/-- A fresh parking space record as `loadInitialData` creates it. -/
def mkSpace (i : Int) : ParkingSpace :=
  { space_id := i, status := 0, occupancy_count := 0, total_revenue := 0,
    parked_vehicle_num := "" }

/-- Like `mkSpace` but with the space occupied. -/
def occSpace (i : Int) : ParkingSpace :=
  { space_id := i, status := 1, occupancy_count := 0, total_revenue := 0,
    parked_vehicle_num := "" }

/-- Shorthand for a leaf of the space index whose stored records are all
still free. -/
def mkSpaceLeaf (ks : List Int) (nx pv : Option Nat) : BNode Int ParkingSpace :=
  { isLeaf := true, keys := ks, vals := ks.map mkSpace, children := [],
    next := nx, prev := pv }

def mkInternal (ks : List Int) (cs : List Nat) : BNode Int ParkingSpace :=
  { isLeaf := false, keys := ks, vals := [], children := cs, next := none, prev := none }

/-- The first 30 inserts of `loadInitialData`'s space initialization
(space ids 1..30, order t = 3). -/
def c10Inserts : List (Int × ParkingSpace) :=
  [(1, mkSpace 1), (2, mkSpace 2), (3, mkSpace 3), (4, mkSpace 4), (5, mkSpace 5),
   (6, mkSpace 6), (7, mkSpace 7), (8, mkSpace 8), (9, mkSpace 9), (10, mkSpace 10),
   (11, mkSpace 11), (12, mkSpace 12), (13, mkSpace 13), (14, mkSpace 14), (15, mkSpace 15),
   (16, mkSpace 16), (17, mkSpace 17), (18, mkSpace 18), (19, mkSpace 19), (20, mkSpace 20),
   (21, mkSpace 21), (22, mkSpace 22), (23, mkSpace 23), (24, mkSpace 24), (25, mkSpace 25),
   (26, mkSpace 26), (27, mkSpace 27), (28, mkSpace 28), (29, mkSpace 29), (30, mkSpace 30)]

def c10s1 : BState Int ParkingSpace :=
  { t := 3, root := 0, firstLeaf := 0,
    nodes := [mkSpaceLeaf [1] none none] }

def c10s2 : BState Int ParkingSpace :=
  { t := 3, root := 0, firstLeaf := 0,
    nodes := [mkSpaceLeaf [1, 2] none none] }

def c10s3 : BState Int ParkingSpace :=
  { t := 3, root := 0, firstLeaf := 0,
    nodes := [mkSpaceLeaf [1, 2, 3] none none] }

def c10s4 : BState Int ParkingSpace :=
  { t := 3, root := 0, firstLeaf := 0,
    nodes := [mkSpaceLeaf [1, 2, 3, 4] none none] }

def c10s5 : BState Int ParkingSpace :=
  { t := 3, root := 0, firstLeaf := 0,
    nodes := [mkSpaceLeaf [1, 2, 3, 4, 5] none none] }

def c10s6 : BState Int ParkingSpace :=
  { t := 3, root := 2, firstLeaf := 0,
    nodes := [mkSpaceLeaf [1, 2, 3] (some 1) none,
              mkSpaceLeaf [4, 5] none (some 0),
              mkInternal [4] [0, 1]] }

def c10s7 : BState Int ParkingSpace :=
  { t := 3, root := 2, firstLeaf := 0,
    nodes := [mkSpaceLeaf [1, 2, 3] (some 1) none,
              mkSpaceLeaf [4, 5, 7] none (some 0),
              mkInternal [4] [0, 1]] }

def c10s8 : BState Int ParkingSpace :=
  { t := 3, root := 2, firstLeaf := 0,
    nodes := [mkSpaceLeaf [1, 2, 3] (some 1) none,
              mkSpaceLeaf [4, 5, 7, 8] none (some 0),
              mkInternal [4] [0, 1]] }

def c10s9 : BState Int ParkingSpace :=
  { t := 3, root := 2, firstLeaf := 0,
    nodes := [mkSpaceLeaf [1, 2, 3] (some 1) none,
              mkSpaceLeaf [4, 5, 7, 8, 9] none (some 0),
              mkInternal [4] [0, 1]] }

def c10s10 : BState Int ParkingSpace :=
  { t := 3, root := 2, firstLeaf := 0,
    nodes := [mkSpaceLeaf [1, 2, 3] (some 1) none,
              mkSpaceLeaf [4, 5, 7] (some 3) (some 0),
              mkInternal [4, 8] [0, 1, 3],
              mkSpaceLeaf [8, 9] none (some 1)] }

def c10s11 : BState Int ParkingSpace :=
  { t := 3, root := 2, firstLeaf := 0,
    nodes := [mkSpaceLeaf [1, 2, 3] (some 1) none,
              mkSpaceLeaf [4, 5, 7] (some 3) (some 0),
              mkInternal [4, 8] [0, 1, 3],
              mkSpaceLeaf [8, 9, 11] none (some 1)] }

def c10s12 : BState Int ParkingSpace :=
  { t := 3, root := 2, firstLeaf := 0,
    nodes := [mkSpaceLeaf [1, 2, 3] (some 1) none,
              mkSpaceLeaf [4, 5, 7] (some 3) (some 0),
              mkInternal [4, 8] [0, 1, 3],
              mkSpaceLeaf [8, 9, 11, 12] none (some 1)] }

def c10s13 : BState Int ParkingSpace :=
  { t := 3, root := 2, firstLeaf := 0,
    nodes := [mkSpaceLeaf [1, 2, 3] (some 1) none,
              mkSpaceLeaf [4, 5, 7] (some 3) (some 0),
              mkInternal [4, 8] [0, 1, 3],
              mkSpaceLeaf [8, 9, 11, 12, 13] none (some 1)] }

def c10s14 : BState Int ParkingSpace :=
  { t := 3, root := 2, firstLeaf := 0,
    nodes := [mkSpaceLeaf [1, 2, 3] (some 1) none,
              mkSpaceLeaf [4, 5, 7] (some 3) (some 0),
              mkInternal [4, 8, 12] [0, 1, 3, 4],
              mkSpaceLeaf [8, 9, 11] (some 4) (some 1),
              mkSpaceLeaf [12, 13] none (some 3)] }

def c10s15 : BState Int ParkingSpace :=
  { t := 3, root := 2, firstLeaf := 0,
    nodes := [mkSpaceLeaf [1, 2, 3] (some 1) none,
              mkSpaceLeaf [4, 5, 7] (some 3) (some 0),
              mkInternal [4, 8, 12] [0, 1, 3, 4],
              mkSpaceLeaf [8, 9, 11] (some 4) (some 1),
              mkSpaceLeaf [12, 13, 15] none (some 3)] }

def c10s16 : BState Int ParkingSpace :=
  { t := 3, root := 2, firstLeaf := 0,
    nodes := [mkSpaceLeaf [1, 2, 3] (some 1) none,
              mkSpaceLeaf [4, 5, 7] (some 3) (some 0),
              mkInternal [4, 8, 12] [0, 1, 3, 4],
              mkSpaceLeaf [8, 9, 11] (some 4) (some 1),
              mkSpaceLeaf [12, 13, 15, 16] none (some 3)] }

def c10s17 : BState Int ParkingSpace :=
  { t := 3, root := 2, firstLeaf := 0,
    nodes := [mkSpaceLeaf [1, 2, 3] (some 1) none,
              mkSpaceLeaf [4, 5, 7] (some 3) (some 0),
              mkInternal [4, 8, 12] [0, 1, 3, 4],
              mkSpaceLeaf [8, 9, 11] (some 4) (some 1),
              mkSpaceLeaf [12, 13, 15, 16, 17] none (some 3)] }

def c10s18 : BState Int ParkingSpace :=
  { t := 3, root := 2, firstLeaf := 0,
    nodes := [mkSpaceLeaf [1, 2, 3] (some 1) none,
              mkSpaceLeaf [4, 5, 7] (some 3) (some 0),
              mkInternal [4, 8, 12, 16] [0, 1, 3, 4, 5],
              mkSpaceLeaf [8, 9, 11] (some 4) (some 1),
              mkSpaceLeaf [12, 13, 15] (some 5) (some 3),
              mkSpaceLeaf [16, 17] none (some 4)] }

def c10s19 : BState Int ParkingSpace :=
  { t := 3, root := 2, firstLeaf := 0,
    nodes := [mkSpaceLeaf [1, 2, 3] (some 1) none,
              mkSpaceLeaf [4, 5, 7] (some 3) (some 0),
              mkInternal [4, 8, 12, 16] [0, 1, 3, 4, 5],
              mkSpaceLeaf [8, 9, 11] (some 4) (some 1),
              mkSpaceLeaf [12, 13, 15] (some 5) (some 3),
              mkSpaceLeaf [16, 17, 19] none (some 4)] }

def c10s20 : BState Int ParkingSpace :=
  { t := 3, root := 2, firstLeaf := 0,
    nodes := [mkSpaceLeaf [1, 2, 3] (some 1) none,
              mkSpaceLeaf [4, 5, 7] (some 3) (some 0),
              mkInternal [4, 8, 12, 16] [0, 1, 3, 4, 5],
              mkSpaceLeaf [8, 9, 11] (some 4) (some 1),
              mkSpaceLeaf [12, 13, 15] (some 5) (some 3),
              mkSpaceLeaf [16, 17, 19, 20] none (some 4)] }

def c10s21 : BState Int ParkingSpace :=
  { t := 3, root := 2, firstLeaf := 0,
    nodes := [mkSpaceLeaf [1, 2, 3] (some 1) none,
              mkSpaceLeaf [4, 5, 7] (some 3) (some 0),
              mkInternal [4, 8, 12, 16] [0, 1, 3, 4, 5],
              mkSpaceLeaf [8, 9, 11] (some 4) (some 1),
              mkSpaceLeaf [12, 13, 15] (some 5) (some 3),
              mkSpaceLeaf [16, 17, 19, 20, 21] none (some 4)] }

def c10s22 : BState Int ParkingSpace :=
  { t := 3, root := 2, firstLeaf := 0,
    nodes := [mkSpaceLeaf [1, 2, 3] (some 1) none,
              mkSpaceLeaf [4, 5, 7] (some 3) (some 0),
              mkInternal [4, 8, 12, 16, 20] [0, 1, 3, 4, 5, 6],
              mkSpaceLeaf [8, 9, 11] (some 4) (some 1),
              mkSpaceLeaf [12, 13, 15] (some 5) (some 3),
              mkSpaceLeaf [16, 17, 19] (some 6) (some 4),
              mkSpaceLeaf [20, 21] none (some 5)] }

def c10s23 : BState Int ParkingSpace :=
  { t := 3, root := 2, firstLeaf := 0,
    nodes := [mkSpaceLeaf [1, 2, 3] (some 1) none,
              mkSpaceLeaf [4, 5, 7] (some 3) (some 0),
              mkInternal [4, 8, 12, 16, 20] [0, 1, 3, 4, 5, 6],
              mkSpaceLeaf [8, 9, 11] (some 4) (some 1),
              mkSpaceLeaf [12, 13, 15] (some 5) (some 3),
              mkSpaceLeaf [16, 17, 19] (some 6) (some 4),
              mkSpaceLeaf [20, 21, 23] none (some 5)] }

def c10s24 : BState Int ParkingSpace :=
  { t := 3, root := 2, firstLeaf := 0,
    nodes := [mkSpaceLeaf [1, 2, 3] (some 1) none,
              mkSpaceLeaf [4, 5, 7] (some 3) (some 0),
              mkInternal [4, 8, 12, 16, 20] [0, 1, 3, 4, 5, 6],
              mkSpaceLeaf [8, 9, 11] (some 4) (some 1),
              mkSpaceLeaf [12, 13, 15] (some 5) (some 3),
              mkSpaceLeaf [16, 17, 19] (some 6) (some 4),
              mkSpaceLeaf [20, 21, 23, 24] none (some 5)] }

def c10s25 : BState Int ParkingSpace :=
  { t := 3, root := 2, firstLeaf := 0,
    nodes := [mkSpaceLeaf [1, 2, 3] (some 1) none,
              mkSpaceLeaf [4, 5, 7] (some 3) (some 0),
              mkInternal [4, 8, 12, 16, 20] [0, 1, 3, 4, 5, 6],
              mkSpaceLeaf [8, 9, 11] (some 4) (some 1),
              mkSpaceLeaf [12, 13, 15] (some 5) (some 3),
              mkSpaceLeaf [16, 17, 19] (some 6) (some 4),
              mkSpaceLeaf [20, 21, 23, 24, 25] none (some 5)] }

def c10s26 : BState Int ParkingSpace :=
  { t := 3, root := 9, firstLeaf := 0,
    nodes := [mkSpaceLeaf [1, 2, 3] (some 1) none,
              mkSpaceLeaf [4, 5, 7] (some 3) (some 0),
              mkInternal [4, 8] [0, 1, 3],
              mkSpaceLeaf [8, 9, 11] (some 4) (some 1),
              mkSpaceLeaf [12, 13, 15] (some 5) (some 3),
              mkSpaceLeaf [16, 17, 19] (some 6) (some 4),
              mkSpaceLeaf [20, 21, 23] (some 7) (some 5),
              mkSpaceLeaf [24, 25] none (some 6),
              mkInternal [16, 20] [4, 5, 6],
              mkInternal [12] [2, 8]] }

def c10s27 : BState Int ParkingSpace :=
  { t := 3, root := 9, firstLeaf := 0,
    nodes := [mkSpaceLeaf [1, 2, 3] (some 1) none,
              mkSpaceLeaf [4, 5, 7] (some 3) (some 0),
              mkInternal [4, 8] [0, 1, 3],
              mkSpaceLeaf [8, 9, 11] (some 4) (some 1),
              mkSpaceLeaf [12, 13, 15] (some 5) (some 3),
              mkSpaceLeaf [16, 17, 19] (some 6) (some 4),
              mkSpaceLeaf [20, 21, 23, 27] (some 7) (some 5),
              mkSpaceLeaf [24, 25] none (some 6),
              mkInternal [16, 20] [4, 5, 6],
              mkInternal [12] [2, 8]] }

def c10s28 : BState Int ParkingSpace :=
  { t := 3, root := 9, firstLeaf := 0,
    nodes := [mkSpaceLeaf [1, 2, 3] (some 1) none,
              mkSpaceLeaf [4, 5, 7] (some 3) (some 0),
              mkInternal [4, 8] [0, 1, 3],
              mkSpaceLeaf [8, 9, 11] (some 4) (some 1),
              mkSpaceLeaf [12, 13, 15] (some 5) (some 3),
              mkSpaceLeaf [16, 17, 19] (some 6) (some 4),
              mkSpaceLeaf [20, 21, 23, 27, 28] (some 7) (some 5),
              mkSpaceLeaf [24, 25] none (some 6),
              mkInternal [16, 20] [4, 5, 6],
              mkInternal [12] [2, 8]] }

def c10s29 : BState Int ParkingSpace :=
  { t := 3, root := 9, firstLeaf := 0,
    nodes := [mkSpaceLeaf [1, 2, 3] (some 1) none,
              mkSpaceLeaf [4, 5, 7] (some 3) (some 0),
              mkInternal [4, 8] [0, 1, 3],
              mkSpaceLeaf [8, 9, 11] (some 4) (some 1),
              mkSpaceLeaf [12, 13, 15] (some 5) (some 3),
              mkSpaceLeaf [16, 17, 19] (some 6) (some 4),
              mkSpaceLeaf [20, 21, 23] (some 10) (some 5),
              mkSpaceLeaf [24, 25] none (some 10),
              mkInternal [16, 20, 27] [4, 5, 6, 10],
              mkInternal [12] [2, 8],
              mkSpaceLeaf [27, 28] (some 7) (some 6)] }

def c10s30 : BState Int ParkingSpace :=
  { t := 3, root := 9, firstLeaf := 0,
    nodes := [mkSpaceLeaf [1, 2, 3] (some 1) none,
              mkSpaceLeaf [4, 5, 7] (some 3) (some 0),
              mkInternal [4, 8] [0, 1, 3],
              mkSpaceLeaf [8, 9, 11] (some 4) (some 1),
              mkSpaceLeaf [12, 13, 15] (some 5) (some 3),
              mkSpaceLeaf [16, 17, 19] (some 6) (some 4),
              mkSpaceLeaf [20, 21, 23] (some 10) (some 5),
              mkSpaceLeaf [24, 25] none (some 10),
              mkInternal [16, 20, 27] [4, 5, 6, 10],
              mkInternal [12] [2, 8],
              mkSpaceLeaf [27, 28, 30] (some 7) (some 6)] }

/-- State `c10s30` with space 21 occupied. -/
def c10occA : BState Int ParkingSpace :=
  { t := 3, root := 9, firstLeaf := 0,
    nodes := [mkSpaceLeaf [1, 2, 3] (some 1) none,
              mkSpaceLeaf [4, 5, 7] (some 3) (some 0),
              mkInternal [4, 8] [0, 1, 3],
              mkSpaceLeaf [8, 9, 11] (some 4) (some 1),
              mkSpaceLeaf [12, 13, 15] (some 5) (some 3),
              mkSpaceLeaf [16, 17, 19] (some 6) (some 4),
              ⟨true, [20, 21, 23], [mkSpace 20, occSpace 21, mkSpace 23], [], some 10, some 5⟩,
              mkSpaceLeaf [24, 25] none (some 10),
              mkInternal [16, 20, 27] [4, 5, 6, 10],
              mkInternal [12] [2, 8],
              mkSpaceLeaf [27, 28, 30] (some 7) (some 6)] }

/-- State `c10s30` with spaces 21 and 23 occupied. -/
def c10occB : BState Int ParkingSpace :=
  { t := 3, root := 9, firstLeaf := 0,
    nodes := [mkSpaceLeaf [1, 2, 3] (some 1) none,
              mkSpaceLeaf [4, 5, 7] (some 3) (some 0),
              mkInternal [4, 8] [0, 1, 3],
              mkSpaceLeaf [8, 9, 11] (some 4) (some 1),
              mkSpaceLeaf [12, 13, 15] (some 5) (some 3),
              mkSpaceLeaf [16, 17, 19] (some 6) (some 4),
              ⟨true, [20, 21, 23], [mkSpace 20, occSpace 21, occSpace 23], [], some 10, some 5⟩,
              mkSpaceLeaf [24, 25] none (some 10),
              mkInternal [16, 20, 27] [4, 5, 6, 10],
              mkInternal [12] [2, 8],
              mkSpaceLeaf [27, 28, 30] (some 7) (some 6)] }

/-- The space index produced by the first 30 initialization inserts, with
spaces 21 and 23 then marked occupied through their stored records (as two
vehicle entries would leave them). -/
def c10State : BState Int ParkingSpace :=
  updateData
    (updateData (runInserts (mkTree Int ParkingSpace 3) c10Inserts) 21
      (fun p => { p with status := 1 }))
    23 (fun p => { p with status := 1 })

/-! ## C8: range scan vs. filtered full scan -/

/-- The C convention for a missing result: `-1`. -/
def optToInt : Option Int → Int
  | some r => r
  | none => -1

/-- A concrete full order-2 internal node for the C6 witness: keys
`[10, 20, 30]`, children `[0, 1, 2, 3]`. -/
def c6WitnessState : BState Int Int :=
  { t := 2,
    nodes := [emptyLeaf, emptyLeaf, emptyLeaf, emptyLeaf,
              ⟨false, [10, 20, 30], [], [0, 1, 2, 3], none, none⟩],
    root := 4, firstLeaf := 0 }

/-- Two sibling leaves of equal height under a leaf root, for the C7
witness. -/
def c7WitnessState : BState Int Int :=
  { t := 2,
    nodes := [⟨true, [1, 2], [10, 20], [], some 1, none⟩,
              ⟨true, [3, 4], [30, 40], [], none, some 0⟩],
    root := 0, firstLeaf := 0 }

/-- The structural data `findLeaf` can observe: everything except the stored
values. -/
def nodeShape {K V : Type} (nd : BNode K V) : Bool × List K × List Nat × Option Nat :=
  (nd.isLeaf, nd.keys, nd.children, nd.next)

/-- A one-vehicle index for the C9 witness: "KA01" parked in space 1. -/
def c9vt : BState String Vehicle :=
  { t := 2,
    nodes := [⟨true, ["KA01"],
      [⟨"KA01", "Alice", 1000, 0, .noMembership, 0, 0, 0, 1⟩], [], none, none⟩],
    root := 0, firstLeaf := 0 }

/-- A two-space index for the C9 witness: space 1 occupied by "KA01",
space 2 free. -/
def c9st : BState Int ParkingSpace :=
  { t := 2,
    nodes := [⟨true, [1, 2], [⟨1, 1, 0, 0, "KA01"⟩, mkSpace 2], [], none, none⟩],
    root := 0, firstLeaf := 0 }

/-! ## Theorems -/

/-! ## Concrete runs

The intermediate states below are the exact states the embedded
`insertBPlusTree` produces; each step is checked by `decide` in the proofs
that use them. -/

theorem runInserts_nil {K V : Type} [LinearOrder K] (s : BState K V) :
    runInserts s [] = s := rfl

theorem runInserts_cons {K V : Type} [LinearOrder K] (s : BState K V) (k : K) (v : V)
    (l : List (K × V)) :
    runInserts s ((k, v) :: l) = runInserts (insertBPlusTree s k v).1 l := rfl

/-- The order-2 run of `c5Inserts`, step by step. -/
theorem c5_run_eq : runInserts (mkTree Int Int 2) c5Inserts = c5s15 := by
  have h1 : (insertBPlusTree (mkTree Int Int 2) 1 10).1 = c5s1 := by decide
  have h2 : (insertBPlusTree c5s1 2 20).1 = c5s2 := by decide
  have h3 : (insertBPlusTree c5s2 3 30).1 = c5s3 := by decide
  have h4 : (insertBPlusTree c5s3 4 40).1 = c5s4 := by decide
  have h5 : (insertBPlusTree c5s4 5 50).1 = c5s5 := by decide
  have h6 : (insertBPlusTree c5s5 6 60).1 = c5s6 := by decide
  have h7 : (insertBPlusTree c5s6 7 70).1 = c5s7 := by decide
  have h8 : (insertBPlusTree c5s7 8 80).1 = c5s8 := by decide
  have h9 : (insertBPlusTree c5s8 9 90).1 = c5s9 := by decide
  have h10 : (insertBPlusTree c5s9 10 100).1 = c5s10 := by decide
  have h11 : (insertBPlusTree c5s10 11 110).1 = c5s11 := by decide
  have h12 : (insertBPlusTree c5s11 12 120).1 = c5s12 := by decide
  have h13 : (insertBPlusTree c5s12 13 130).1 = c5s13 := by decide
  have h14 : (insertBPlusTree c5s13 14 140).1 = c5s14 := by decide
  have h15 : (insertBPlusTree c5s14 15 150).1 = c5s15 := by decide
  simp only [c5Inserts]
  rw [runInserts_cons, h1, runInserts_cons, h2, runInserts_cons, h3, runInserts_cons, h4, runInserts_cons, h5, runInserts_cons, h6, runInserts_cons, h7, runInserts_cons, h8, runInserts_cons, h9, runInserts_cons, h10, runInserts_cons, h11, runInserts_cons, h12, runInserts_cons, h13, runInserts_cons, h14, runInserts_cons, h15, runInserts_nil]

/-- The order-3 run of `c10Inserts`, step by step. -/
theorem c10_run_eq : runInserts (mkTree Int ParkingSpace 3) c10Inserts = c10s30 := by
  have g1 : (insertBPlusTree (mkTree Int ParkingSpace 3) 1 (mkSpace 1)).1 = c10s1 := by decide
  have g2 : (insertBPlusTree c10s1 2 (mkSpace 2)).1 = c10s2 := by decide
  have g3 : (insertBPlusTree c10s2 3 (mkSpace 3)).1 = c10s3 := by decide
  have g4 : (insertBPlusTree c10s3 4 (mkSpace 4)).1 = c10s4 := by decide
  have g5 : (insertBPlusTree c10s4 5 (mkSpace 5)).1 = c10s5 := by decide
  have g6 : (insertBPlusTree c10s5 6 (mkSpace 6)).1 = c10s6 := by decide
  have g7 : (insertBPlusTree c10s6 7 (mkSpace 7)).1 = c10s7 := by decide
  have g8 : (insertBPlusTree c10s7 8 (mkSpace 8)).1 = c10s8 := by decide
  have g9 : (insertBPlusTree c10s8 9 (mkSpace 9)).1 = c10s9 := by decide
  have g10 : (insertBPlusTree c10s9 10 (mkSpace 10)).1 = c10s10 := by decide
  have g11 : (insertBPlusTree c10s10 11 (mkSpace 11)).1 = c10s11 := by decide
  have g12 : (insertBPlusTree c10s11 12 (mkSpace 12)).1 = c10s12 := by decide
  have g13 : (insertBPlusTree c10s12 13 (mkSpace 13)).1 = c10s13 := by decide
  have g14 : (insertBPlusTree c10s13 14 (mkSpace 14)).1 = c10s14 := by decide
  have g15 : (insertBPlusTree c10s14 15 (mkSpace 15)).1 = c10s15 := by decide
  have g16 : (insertBPlusTree c10s15 16 (mkSpace 16)).1 = c10s16 := by decide
  have g17 : (insertBPlusTree c10s16 17 (mkSpace 17)).1 = c10s17 := by decide
  have g18 : (insertBPlusTree c10s17 18 (mkSpace 18)).1 = c10s18 := by decide
  have g19 : (insertBPlusTree c10s18 19 (mkSpace 19)).1 = c10s19 := by decide
  have g20 : (insertBPlusTree c10s19 20 (mkSpace 20)).1 = c10s20 := by decide
  have g21 : (insertBPlusTree c10s20 21 (mkSpace 21)).1 = c10s21 := by decide
  have g22 : (insertBPlusTree c10s21 22 (mkSpace 22)).1 = c10s22 := by decide
  have g23 : (insertBPlusTree c10s22 23 (mkSpace 23)).1 = c10s23 := by decide
  have g24 : (insertBPlusTree c10s23 24 (mkSpace 24)).1 = c10s24 := by decide
  have g25 : (insertBPlusTree c10s24 25 (mkSpace 25)).1 = c10s25 := by decide
  have g26 : (insertBPlusTree c10s25 26 (mkSpace 26)).1 = c10s26 := by decide
  have g27 : (insertBPlusTree c10s26 27 (mkSpace 27)).1 = c10s27 := by decide
  have g28 : (insertBPlusTree c10s27 28 (mkSpace 28)).1 = c10s28 := by decide
  have g29 : (insertBPlusTree c10s28 29 (mkSpace 29)).1 = c10s29 := by decide
  have g30 : (insertBPlusTree c10s29 30 (mkSpace 30)).1 = c10s30 := by decide
  simp only [c10Inserts]
  rw [runInserts_cons, g1, runInserts_cons, g2, runInserts_cons, g3, runInserts_cons, g4, runInserts_cons, g5, runInserts_cons, g6, runInserts_cons, g7, runInserts_cons, g8, runInserts_cons, g9, runInserts_cons, g10, runInserts_cons, g11, runInserts_cons, g12, runInserts_cons, g13, runInserts_cons, g14, runInserts_cons, g15, runInserts_cons, g16, runInserts_cons, g17, runInserts_cons, g18, runInserts_cons, g19, runInserts_cons, g20, runInserts_cons, g21, runInserts_cons, g22, runInserts_cons, g23, runInserts_cons, g24, runInserts_cons, g25, runInserts_cons, g26, runInserts_cons, g27, runInserts_cons, g28, runInserts_cons, g29, runInserts_cons, g30, runInserts_nil]

/-! ## Claims refuted by the code (the split paths drop data)

`insertBPlusTree` builds the merged `2t`-entry temporaries on the full-leaf
path and `insertIntoParent` builds the merged key/child temporaries on the
full-parent path, but neither is ever read: the new entry (resp. the pending
separator and its right child) is simply dropped.  The theorems below
evaluate the embedded code on concrete runs exhibiting this. -/

/-- C1: the spec says any sequence of `N ≥ 0` inserts with pairwise distinct
keys makes `scanAscending` yield exactly those `N` keys in order.  Refuted:
inserting the 4 distinct keys 1,2,3,4 into an empty order-2 tree (the 4th
insert succeeding, not a duplicate) leaves only `[1,2,3]` on the leaf
chain — the 4th key is dropped by the full-leaf split path. -/
theorem claim_C1 :
    (insertBPlusTree (runInserts (mkTree Int Int 2) [(1, 10), (2, 20), (3, 30)]) 4 40).2 =
      .ok ∧
    scanKeys
      (insertBPlusTree (runInserts (mkTree Int Int 2) [(1, 10), (2, 20), (3, 30)]) 4 40).1 =
      [1, 2, 3] := by
  decide

/-- C2: the spec says splitting a full leaf distributes the merged
`2t`-entry sequence (old entries plus the new one) as `t` left / `t` right,
the new entry landing in one of the two leaves.  Refuted: with `t = 2` and
the full leaf `[1,2,3]`, inserting 4 leaves the original leaf with `[1,2]`
and the new leaf with just `[3]` — the new entry is in neither leaf (it was
only written to the unused temporaries).  The splice of the new leaf after
the original and the copied-up separator 3 do happen as described. -/
theorem claim_C2 :
    (insertBPlusTree (runInserts (mkTree Int Int 2) [(1, 10), (2, 20), (3, 30)]) 4 40).2 =
      .ok ∧
    getNode (insertBPlusTree (runInserts (mkTree Int Int 2) [(1, 10), (2, 20), (3, 30)]) 4 40).1
        0 = some ⟨true, [1, 2], [10, 20], [], some 1, none⟩ ∧
    getNode (insertBPlusTree (runInserts (mkTree Int Int 2) [(1, 10), (2, 20), (3, 30)]) 4 40).1
        1 = some ⟨true, [3], [30], [], none, some 0⟩ ∧
    getNode (insertBPlusTree (runInserts (mkTree Int Int 2) [(1, 10), (2, 20), (3, 30)]) 4 40).1
        2 = some ⟨false, [3], [], [0, 1], none, none⟩ := by
  decide

/-- C3: the spec says `search` returns the value of every key whose insert
succeeded (did not report DuplicateKey).  Refuted: in the order-2 run
1,2,3,4 the insert of 4 succeeds yet `search 4` returns NotFound (the key
was dropped by the split path); `search 3` still works. -/
theorem claim_C3 :
    (insertBPlusTree (runInserts (mkTree Int Int 2) [(1, 10), (2, 20), (3, 30)]) 4 40).2 =
      .ok ∧
    searchBPlusTree
      (insertBPlusTree (runInserts (mkTree Int Int 2) [(1, 10), (2, 20), (3, 30)]) 4 40).1 4 =
      none ∧
    searchBPlusTree
      (insertBPlusTree (runInserts (mkTree Int Int 2) [(1, 10), (2, 20), (3, 30)]) 4 40).1 3 =
      some 30 := by
  decide

/-- C5: the spec says after every completed insert the leaf chain is strictly
ascending end-to-end.  Refuted: after inserting 1..15 into an order-2 tree
the chain reads `[1,2,3,5,6,8,9,11,14,12]` — a full internal root split
drops the pending separator and right child, stranding the leaf `[12]` in
the chain, and a later split splices the leaf `[14]` in front of it. -/
theorem claim_C5 :
    scanKeys (runInserts (mkTree Int Int 2) c5Inserts) = [1, 2, 3, 5, 6, 8, 9, 11, 14, 12] ∧
    ¬ List.Chain' (· < ·) (scanKeys (runInserts (mkTree Int Int 2) c5Inserts)) := by
  rw [c5_run_eq]
  refine ⟨by decide, ?_⟩
  intro h
  rw [show scanKeys c5s15 = [1, 2, 3, 5, 6, 8, 9, 11, 14, 12] from by decide] at h
  simp only [List.chain'_cons] at h
  exact absurd h.2.2.2.2.2.2.2.2.1 (by decide)

/-- C10: the claim says `findAvailableSpace` returns the smallest free space
id of the membership tier's range.  Refuted on a state the program itself
reaches: after the first 30 space-initialization inserts (order 3) the leaf
chain is out of order (`..., 20, 21, 23, 27, 28, 30, 24, 25`); with 21 and
23 occupied, the no-membership search over `[21, 50]` returns 27 even though
space 24 is stored, free and in range. -/
theorem claim_C10 :
    findAvailableSpace c10State .noMembership = 27 ∧
    (scanAscending c10State).any (fun e => e.1 = 24 ∧ e.2.status = 0) = true ∧
    ((21 : Int) ≤ 24 ∧ (24 : Int) < 27) := by
  have hA : updateData c10s30 21 (fun p => { p with status := 1 }) = c10occA := by decide
  have hB : updateData c10occA 23 (fun p => { p with status := 1 }) = c10occB := by decide
  have hS : c10State = c10occB := by
    simp only [c10State]
    rw [c10_run_eq, hA, hB]
  rw [hS]
  exact ⟨by decide, by decide, by decide⟩

/-- Cross-check against the recorded program output shipped with the
repository (`output.txt`): already after the first 30 space-initialization
inserts, the space ids 25, 14 and 18 referenced by the data file are missing
from the index (14 and 18 were dropped by leaf splits; 25 sits in a leaf the
root can no longer reach) while 30 and 1 are found — matching the program's
logged `CRITICAL Error: Space .. not found in tree during load` lines for
25, 14, 18 and its `Info:` lines for spaces 30 and 1. -/
theorem space_init_matches_recorded_output :
    searchBPlusTree c10s30 25 = none ∧
    searchBPlusTree c10s30 14 = none ∧
    searchBPlusTree c10s30 18 = none ∧
    (searchBPlusTree c10s30 30).isSome = true ∧
    (searchBPlusTree c10s30 1).isSome = true ∧
    (scanAscending c10s30).any (fun e => e.1 = 25) = true := by
  decide

theorem findFlatSpace_append (lo hi : Int) (a b : List (Int × ParkingSpace)) :
    findFlatSpace lo hi (a ++ b) =
      (match scanLeafForSpace lo hi a with
       | some r => r
       | none => findFlatSpace lo hi b) := by
  induction a with
  | nil => simp [scanLeafForSpace]
  | cons e rest ih =>
    obtain ⟨k, ps⟩ := e
    by_cases h1 : lo ≤ k ∧ k ≤ hi ∧ ps.status = 0
    · simp [findFlatSpace, scanLeafForSpace, h1]
    · by_cases h2 : hi < k
      · simp [findFlatSpace, scanLeafForSpace, h1, h2]
      · simpa [findFlatSpace, scanLeafForSpace, h1, h2] using ih

theorem findSpaceAux_eq_flat (s : BState Int ParkingSpace) (lo hi : Int) :
    ∀ (fuel : Nat) (cur : Option Nat),
      findSpaceAux s lo hi fuel cur = findFlatSpace lo hi (chainEntriesAux s fuel cur) := by
  intro fuel
  induction fuel with
  | zero => intro cur; simp [findSpaceAux, chainEntriesAux, findFlatSpace]
  | succ f ih =>
    intro cur
    match cur with
    | none => simp [findSpaceAux, chainEntriesAux, findFlatSpace]
    | some nid =>
      simp only [findSpaceAux, chainEntriesAux]
      match hget : getNode s nid with
      | none => simp [findFlatSpace]
      | some nd =>
        by_cases hl : nd.isLeaf
        · simp only [hl, if_true, findFlatSpace_append, ih]
        · simp [hl, ih]

theorem findFlat_eq_naive (lo hi : Int) :
    ∀ l : List (Int × ParkingSpace), List.Pairwise (· < ·) (l.map Prod.fst) →
      findFlatSpace lo hi l = optToInt (naiveFindSpace l lo hi) := by
  intro l
  induction l with
  | nil => intro _; simp [findFlatSpace, naiveFindSpace, optToInt]
  | cons e rest ih =>
    intro hs
    obtain ⟨k, ps⟩ := e
    rw [List.map_cons, List.pairwise_cons] at hs
    obtain ⟨hhead, htail⟩ := hs
    by_cases h1 : lo ≤ k ∧ k ≤ hi ∧ ps.status = 0
    · simp [findFlatSpace, naiveFindSpace, optToInt, h1, h1.1, h1.2.1, h1.2.2,
        List.filter_cons, List.find?]
    · by_cases h2 : hi < k
      · have hfind :
            (rest.find? fun a =>
              decide (lo ≤ a.1) && decide (a.1 ≤ hi) && decide (a.2.status = 0)) = none := by
          rw [List.find?_eq_none]
          intro a ha
          have hka : k < a.1 := hhead a.1 (List.mem_map_of_mem Prod.fst ha)
          have hahi : ¬ (a.1 ≤ hi) := by omega
          simp [hahi]
        have hk : ¬ (k ≤ hi) := by omega
        simp [findFlatSpace, naiveFindSpace, optToInt, h1, h2, List.filter_cons, hk, hfind]
      · by_cases h3 : lo ≤ k
        · have hk2 : k ≤ hi := by omega
          have hstat : ¬ (ps.status = 0) := by
            intro hc; exact h1 ⟨h3, hk2, hc⟩
          simp [findFlatSpace, naiveFindSpace, optToInt, h1, h2, List.filter_cons, h3, hk2,
            hstat, List.find?, ih htail]
        · simp [findFlatSpace, naiveFindSpace, optToInt, h1, h2, List.filter_cons, h3,
            ih htail]

/-- C8: for a tree whose leaf chain is globally (strictly) ascending, the
first-match range scan `findSpaceInRangeFromLeaves` — including its early
stop once a visited key exceeds the upper bound — returns exactly the naive
result: filter the full `scanAscending` sequence to `lo ≤ key ≤ hi` and take
the first free entry's space id, `-1` when there is none. -/
theorem claim_C8 (s : BState Int ParkingSpace) (lo hi : Int)
    (hs : List.Chain' (· < ·) (scanKeys s)) :
    findSpaceInRangeFromLeaves s lo hi = optToInt (naiveFindSpace (scanAscending s) lo hi) := by
  have hp : List.Pairwise (· < ·) ((scanAscending s).map Prod.fst) :=
    List.chain'_iff_pairwise.mp hs
  rw [findSpaceInRangeFromLeaves, findSpaceAux_eq_flat]
  exact findFlat_eq_naive lo hi _ hp

/-- Witness for C8 at the concrete sorted two-leaf state `c10s7`
(chain `[1,2,3],[4,5,7]`), range `[2,4]`: both sides return space 2. -/
theorem claim_C8_witness :
    findSpaceInRangeFromLeaves c10s7 2 4 = optToInt (naiveFindSpace (scanAscending c10s7) 2 4) ∧
    findSpaceInRangeFromLeaves c10s7 2 4 = 2 := by
  constructor
  · apply claim_C8
    rw [show scanKeys c10s7 = [1, 2, 3, 4, 5, 7] from by decide]
    simp only [List.chain'_cons, List.chain'_singleton]
    exact ⟨by decide, by decide, by decide, by decide, by decide, trivial⟩
  · decide

/-! ## C6: internal node split -/

theorem list_decomp_at {K : Type} (l : List K) (i : Nat) (h : i < l.length) :
    l = l.take i ++ l[i] :: l.drop (i + 1) := by
  conv_lhs => rw [← List.take_append_drop i l]
  rw [List.getElem_cons_drop]

/-- C6: splitting a full internal node (`2t-1` strictly ascending keys,
`2t` children) removes the true median — the key at position `t-1` — and
hands it up for insertion into the parent: afterwards the original node
keeps exactly its first `t-1` keys with its first `t` children, the fresh
internal node holds exactly the last `t-1` keys with the last `t` children,
and the median key appears in neither node. -/
theorem claim_C6 {K V : Type} [LinearOrder K] (s : BState K V) (nid : Nat) (nd : BNode K V)
    (ht : 2 ≤ s.t) (hnd : getNode s nid = some nd) (hleaf : nd.isLeaf = false)
    (hkeys : nd.keys.length = 2 * s.t - 1) (hch : nd.children.length = 2 * s.t)
    (hsorted : List.Pairwise (· < ·) nd.keys) :
    ∃ median : K,
      splitInternalNode s nid =
        (setNode { s with nodes := s.nodes ++
            [{ isLeaf := false, keys := nd.keys.drop s.t, vals := [],
               children := nd.children.drop s.t, next := none, prev := none }] } nid
          { nd with keys := nd.keys.take (s.t - 1), children := nd.children.take s.t },
         some (median, s.nodes.length)) ∧
      nd.keys = nd.keys.take (s.t - 1) ++ median :: nd.keys.drop s.t ∧
      (nd.keys.take (s.t - 1)).length = s.t - 1 ∧
      (nd.keys.drop s.t).length = s.t - 1 ∧
      (nd.children.take s.t).length = s.t ∧
      (nd.children.drop s.t).length = s.t ∧
      median ∉ nd.keys.take (s.t - 1) ∧
      median ∉ nd.keys.drop s.t := by
  have hlt : s.t - 1 < nd.keys.length := by omega
  have hdecomp : nd.keys = nd.keys.take (s.t - 1) ++ nd.keys[s.t - 1] :: nd.keys.drop s.t := by
    have h0 := list_decomp_at nd.keys (s.t - 1) hlt
    rwa [show s.t - 1 + 1 = s.t from by omega] at h0
  refine ⟨nd.keys[s.t - 1], ?_, hdecomp, ?_, ?_, ?_, ?_, ?_, ?_⟩
  · rw [splitInternalNode, hnd]
    simp only [hleaf, Bool.false_eq_true, if_false, List.getElem?_eq_getElem hlt, allocNode]
  · rw [List.length_take, Nat.min_eq_left (by omega)]
  · rw [List.length_drop, hkeys]; omega
  · rw [List.length_take, Nat.min_eq_left (by omega)]
  · rw [List.length_drop, hch]; omega
  · intro hmem
    rw [hdecomp, List.pairwise_append] at hsorted
    exact lt_irrefl _ (hsorted.2.2 _ hmem _ (List.mem_cons_self _ _))
  · intro hmem
    rw [hdecomp] at hsorted
    have h2 := (List.pairwise_append.mp hsorted).2.1
    rw [List.pairwise_cons] at h2
    exact lt_irrefl _ (h2.1 _ hmem)

/-- Witness for C6 at `c6WitnessState`: the instantiated conclusion, obtained
by applying `claim_C6` with every hypothesis discharged concretely. -/
theorem claim_C6_witness :
    ∃ median : Int,
      splitInternalNode c6WitnessState 4 =
        (setNode { c6WitnessState with nodes := c6WitnessState.nodes ++
            [{ isLeaf := false, keys := ([10, 20, 30] : List Int).drop 2, vals := [],
               children := ([0, 1, 2, 3] : List Nat).drop 2, next := none, prev := none }] } 4
          { (⟨false, [10, 20, 30], [], [0, 1, 2, 3], none, none⟩ : BNode Int Int) with
              keys := ([10, 20, 30] : List Int).take 1,
              children := ([0, 1, 2, 3] : List Nat).take 2 },
         some (median, 5)) ∧
      ([10, 20, 30] : List Int) = ([10, 20, 30] : List Int).take 1 ++
        median :: ([10, 20, 30] : List Int).drop 2 ∧
      (([10, 20, 30] : List Int).take 1).length = 1 ∧
      (([10, 20, 30] : List Int).drop 2).length = 1 ∧
      (([0, 1, 2, 3] : List Nat).take 2).length = 2 ∧
      (([0, 1, 2, 3] : List Nat).drop 2).length = 2 ∧
      median ∉ ([10, 20, 30] : List Int).take 1 ∧
      median ∉ ([10, 20, 30] : List Int).drop 2 :=
  claim_C6 c6WitnessState 4 ⟨false, [10, 20, 30], [], [0, 1, 2, 3], none, none⟩
    (by decide) (by decide) (by decide) (by decide) (by decide)
    (by norm_num [List.pairwise_cons])

/-! ## C7: root split creates a new root and adds one level -/

theorem getNode_append_lt {K V : Type} {s s2 : BState K V} (nd : BNode K V)
    (hnodes : s2.nodes = s.nodes ++ [nd]) (j : Nat) (hj : j < s.nodes.length) :
    getNode s2 j = getNode s j := by
  rw [getNode, getNode, hnodes, List.getElem?_append_left hj]

theorem heightAux_append {K V : Type} {s s2 : BState K V} (nd : BNode K V)
    (hcb : ChildBounded s) (hnodes : s2.nodes = s.nodes ++ [nd]) :
    ∀ (f j : Nat), j < s.nodes.length → heightAux s2 f j = heightAux s f j := by
  intro f
  induction f with
  | zero => intro j _; rfl
  | succ f ih =>
    intro j hj
    rw [heightAux, heightAux, getNode_append_lt nd hnodes j hj]
    match hget : getNode s j with
    | none => rfl
    | some nj =>
      by_cases hl : nj.isLeaf
      · simp [hl]
      · have hmem : nj ∈ s.nodes := List.getElem?_mem hget
        simp only [hl, Bool.false_eq_true, if_false]
        congr 1
        congr 1
        apply List.map_congr_left
        intro c hc
        exact ih c (hcb nj hmem c hc)

/-- C7: when the split node is the current root, `insertIntoParent` allocates
a fresh internal root holding exactly the one pushed-up separator and exactly
two children — the old root as child 0 and the split-off node as child 1 —
updates the tree's root pointer to it, and (the split-off sibling having the
old root's height) the height of the tree grows by exactly one; no recursive
call is made. -/
theorem claim_C7 {K V : Type} [LinearOrder K] (s : BState K V) (k : K) (rid : Nat)
    (fuel g : Nat) (hcb : ChildBounded s) (hroot : s.root < s.nodes.length)
    (hrid : rid < s.nodes.length)
    (hh : heightAux s g s.root = heightAux s g rid) :
    insertIntoParentAux (fuel + 1) s s.root k rid =
      { s with nodes := s.nodes ++ [⟨false, [k], [], [s.root, rid], none, none⟩],
               root := s.nodes.length } ∧
    getNode (insertIntoParentAux (fuel + 1) s s.root k rid) s.nodes.length =
      some ⟨false, [k], [], [s.root, rid], none, none⟩ ∧
    heightAux (insertIntoParentAux (fuel + 1) s s.root k rid) (g + 1) s.nodes.length =
      heightAux s g s.root + 1 := by
  have h1 : insertIntoParentAux (fuel + 1) s s.root k rid =
      { s with nodes := s.nodes ++ [⟨false, [k], [], [s.root, rid], none, none⟩],
               root := s.nodes.length } := by
    rw [insertIntoParentAux]
    simp [allocNode]
  have hnodes : ({ s with
                     nodes := s.nodes ++ [⟨false, [k], [], [s.root, rid], none, none⟩],
                     root := s.nodes.length } : BState K V).nodes =
      s.nodes ++ [⟨false, [k], [], [s.root, rid], none, none⟩] := rfl
  have hget : getNode { s with
                          nodes := s.nodes ++
                            [⟨false, [k], [], [s.root, rid], none, none⟩],
                          root := s.nodes.length } s.nodes.length =
      some ⟨false, [k], [], [s.root, rid], none, none⟩ := by
    rw [getNode]
    exact List.getElem?_concat_length _ _
  refine ⟨h1, by rw [h1]; exact hget, ?_⟩
  rw [h1, heightAux, hget]
  simp only [Bool.false_eq_true, if_false, List.map_cons, List.map_nil, List.foldr]
  rw [heightAux_append _ hcb hnodes g s.root hroot,
      heightAux_append _ hcb hnodes g rid hrid, ← hh]
  rw [Nat.max_zero, Nat.max_self]
  omega

/-- Witness for C7: applying `claim_C7` at `c7WitnessState` with separator 3
and right child 1 produces the two-level tree with the new root `[3]` over
children `[0, 1]` and height 2 = 1 + 1. -/
theorem claim_C7_witness :
    insertIntoParentAux 1 c7WitnessState c7WitnessState.root (3 : Int) 1 =
      { c7WitnessState with
          nodes := c7WitnessState.nodes ++
            [⟨false, [3], [], [c7WitnessState.root, 1], none, none⟩],
          root := c7WitnessState.nodes.length } ∧
    getNode (insertIntoParentAux 1 c7WitnessState c7WitnessState.root (3 : Int) 1)
        c7WitnessState.nodes.length =
      some ⟨false, [3], [], [c7WitnessState.root, 1], none, none⟩ ∧
    heightAux (insertIntoParentAux 1 c7WitnessState c7WitnessState.root (3 : Int) 1) 2
        c7WitnessState.nodes.length =
      heightAux c7WitnessState 1 c7WitnessState.root + 1 :=
  claim_C7 c7WitnessState 3 1 0 1 (by unfold ChildBounded; decide) (by decide) (by decide)
    (by decide)

/-! ## C4: a duplicate insert never perturbs the tree -/

/-- C4: when the descent reaches a target leaf that already holds an entry
comparing equal to the new key, `insertBPlusTree` reports DuplicateKey and
returns the state unchanged — the duplicate check runs before any structural
mutation — so `scanAscending` and every subsequent `search` (in particular
of the rejected key, which still returns the originally stored value) are
exactly as before the call. -/
theorem claim_C4 {K V : Type} [LinearOrder K] (s : BState K V) (k : K) (v : V)
    (lid : Nat) (nd : BNode K V)
    (hfind : findLeaf s k = some lid) (hnd : getNode s lid = some nd)
    (hdup : nd.keys.any (fun x => k = x) = true) :
    insertBPlusTree s k v = (s, .duplicateKey) ∧
    scanAscending (insertBPlusTree s k v).1 = scanAscending s ∧
    (∀ q : K, searchBPlusTree (insertBPlusTree s k v).1 q = searchBPlusTree s q) := by
  obtain ⟨rnd, hr⟩ : ∃ rnd, getNode s s.root = some rnd := by
    rw [findLeaf, findLeafAux] at hfind
    cases hg : getNode s s.root with
    | none => rw [hg] at hfind; simp at hfind
    | some rnd => exact ⟨rnd, rfl⟩
  have hguard : ¬ (rnd.keys.length = 0 ∧ rnd.isLeaf = true) := by
    rintro ⟨hlen, hisleaf⟩
    rw [findLeaf, findLeafAux, hr] at hfind
    simp only [hisleaf, if_true, Option.some.injEq] at hfind
    rw [← hfind, hr] at hnd
    have hkeys : rnd.keys = [] := List.eq_nil_of_length_eq_zero hlen
    injection hnd with hnd
    rw [← hnd, hkeys] at hdup
    simp [List.any] at hdup
  have h1 : insertBPlusTree s k v = (s, .duplicateKey) := by
    rw [insertBPlusTree]
    simp only [hr, if_neg hguard, hfind, hnd, hdup, if_true]
  exact ⟨h1, by rw [h1], fun q => by rw [h1]⟩

/-- Witness for C4: re-inserting key 1 (with a different value 99) into the
one-entry tree `c5s1` is rejected and changes nothing. -/
theorem claim_C4_witness :
    insertBPlusTree c5s1 (1 : Int) 99 = (c5s1, .duplicateKey) ∧
    scanAscending (insertBPlusTree c5s1 (1 : Int) 99).1 = scanAscending c5s1 ∧
    (∀ q : Int, searchBPlusTree (insertBPlusTree c5s1 (1 : Int) 99).1 q =
      searchBPlusTree c5s1 q) :=
  claim_C4 c5s1 1 99 0 ⟨true, [1], [10], [], none, none⟩ (by decide) (by decide) (by decide)

/-! ## C9: no operation erases an entry — helper lemmas -/

theorem mem_insAt {α : Type} (b : α) : ∀ (p : Nat) (l : List α), ∀ a ∈ l, a ∈ insAt p b l := by
  intro p
  induction p with
  | zero => intro l a ha; exact List.mem_cons_of_mem b ha
  | succ p ih =>
    intro l a ha
    match l with
    | [] => cases ha
    | x :: xs =>
      rcases List.mem_cons.mp ha with h | h
      · exact h ▸ List.mem_cons_self _ _
      · exact List.mem_cons_of_mem x (ih xs a h)

theorem zip_insAt_mem {α β : Type} (a : α) (b : β) :
    ∀ (p : Nat) (l1 : List α) (l2 : List β), l1.length = l2.length →
      ∀ e ∈ l1.zip l2, e ∈ (insAt p a l1).zip (insAt p b l2) := by
  intro p
  induction p with
  | zero =>
    intro l1 l2 _ e he
    exact List.mem_cons_of_mem (a, b) he
  | succ p ih =>
    intro l1 l2 hlen e he
    match l1, l2 with
    | [], _ => cases he
    | x :: xs, [] => cases he
    | x :: xs, y :: ys =>
      rcases List.mem_cons.mp he with h | h
      · exact h ▸ List.mem_cons_self _ _
      · exact List.mem_cons_of_mem (x, y)
          (ih xs ys (by simpa using hlen) e h)

theorem zip_take_eq {α β : Type} :
    ∀ (n : Nat) (l1 : List α) (l2 : List β),
      (l1.zip l2).take n = (l1.take n).zip (l2.take n) := by
  intro n
  induction n with
  | zero => intro l1 l2; rfl
  | succ n ih =>
    intro l1 l2
    match l1, l2 with
    | [], _ => rfl
    | x :: xs, [] => rfl
    | x :: xs, y :: ys =>
      simp only [List.zip_cons_cons, List.take_succ_cons, ih]

theorem zip_drop_eq {α β : Type} :
    ∀ (n : Nat) (l1 : List α) (l2 : List β),
      (l1.zip l2).drop n = (l1.drop n).zip (l2.drop n) := by
  intro n
  induction n with
  | zero => intro l1 l2; rfl
  | succ n ih =>
    intro l1 l2
    match l1, l2 with
    | [], _ => rfl
    | x :: xs, [] => simp [List.zip_nil_right]
    | x :: xs, y :: ys =>
      simp only [List.zip_cons_cons, List.drop_succ_cons, ih]

theorem set_getElem?_self {α : Type} :
    ∀ (l : List α) (i : Nat) (x : α), l[i]? = some x → l.set i x = l := by
  intro l
  induction l with
  | nil => intro i x h; cases h
  | cons y ys ih =>
    intro i x h
    match i with
    | 0 =>
      simp only [List.getElem?_cons_zero, Option.some.injEq] at h
      simp [List.set, h]
    | i + 1 =>
      simp only [List.getElem?_cons_succ] at h
      simp [List.set, ih i x h]

/-- Membership in `allEntries` through an explicit heap index. -/
theorem mem_allEntries_iff {K V : Type} (s : BState K V) (e : K × V) :
    e ∈ allEntries s ↔ ∃ nd ∈ s.nodes, e ∈ leafEntries nd := by
  simp [allEntries, List.mem_flatten]

theorem allEntries_setNode_superset {K V : Type} (s : BState K V) (i : Nat)
    (nd nd' : BNode K V) (hget : getNode s i = some nd)
    (hsub : ∀ e ∈ leafEntries nd, e ∈ leafEntries nd') :
    ∀ e ∈ allEntries s, e ∈ allEntries (setNode s i nd') := by
  intro e he
  rw [mem_allEntries_iff] at he ⊢
  obtain ⟨nd0, hmem, hent⟩ := he
  obtain ⟨j, hj, hnd0⟩ := List.mem_iff_getElem.mp hmem
  by_cases hij : j = i
  · subst hij
    have : nd0 = nd := by
      rw [getNode, List.getElem?_eq_getElem hj] at hget
      injection hget with h
      rw [← h, hnd0]
    refine ⟨nd', ?_, hsub e (this ▸ hnd0 ▸ hent)⟩
    exact List.getElem?_mem (List.getElem?_set_self hj)
  · refine ⟨nd0, ?_, hent⟩
    have h2 : (s.nodes.set i nd')[j]? = some nd0 := by
      rw [List.getElem?_set_ne (Ne.symm hij), List.getElem?_eq_getElem hj, hnd0]
    exact List.getElem?_mem h2

theorem allEntries_setNode_eq {K V : Type} (s : BState K V) (i : Nat)
    (nd nd' : BNode K V) (hget : getNode s i = some nd)
    (heq : leafEntries nd' = leafEntries nd) :
    allEntries (setNode s i nd') = allEntries s := by
  rw [allEntries, allEntries, setNode]
  have h1 : (s.nodes.set i nd').map leafEntries =
      (s.nodes.map leafEntries).set i (leafEntries nd') := List.map_set ..
  rw [h1, heq, set_getElem?_self]
  rw [List.getElem?_map, getNode] at *
  rw [hget]
  rfl

theorem allEntries_append {K V : Type} (s : BState K V) (nd : BNode K V) :
    allEntries { s with nodes := s.nodes ++ [nd] } = allEntries s ++ leafEntries nd := by
  simp [allEntries]

theorem leafEntries_prev_irrelevant {K V : Type} (nd : BNode K V) (p : Option Nat) :
    leafEntries { nd with prev := p } = leafEntries nd := by
  simp [leafEntries]

theorem getNode_setNode_ne {K V : Type} (s : BState K V) (i j : Nat) (nd : BNode K V)
    (h : i ≠ j) : getNode (setNode s i nd) j = getNode s j := by
  rw [getNode, getNode, setNode, List.getElem?_set_ne h]

/-- The alloc-then-redistribute core of `splitLeafNode` keeps every heap
entry: the first `t` pairs stay in the old leaf, the pairs from `t` on are
in the freshly allocated leaf. -/
theorem split_core_superset {K V : Type} (s : BState K V) (lid : Nat) (nd : BNode K V)
    (nx : Option Nat) (hget : getNode s lid = some nd) (hl : nd.isLeaf = true) :
    ∀ e ∈ allEntries s,
      e ∈ allEntries (setNode
        (allocNode s ⟨true, nd.keys.drop s.t, nd.vals.drop s.t, [], nx, some lid⟩).1 lid
        ⟨true, nd.keys.take s.t, nd.vals.take s.t, nd.children,
         some s.nodes.length, nd.prev⟩) := by
  intro e he
  have hlid : lid < s.nodes.length := by
    rw [getNode] at hget
    exact (List.getElem?_eq_some.mp hget).1
  rw [mem_allEntries_iff] at he ⊢
  obtain ⟨nd0, hmem, hent⟩ := he
  obtain ⟨j, hj, hnd0⟩ := List.mem_iff_getElem.mp hmem
  by_cases hij : j = lid
  · subst hij
    have hnd : nd0 = nd := by
      rw [getNode, List.getElem?_eq_getElem hj] at hget
      injection hget with h
      rw [← h, hnd0]
    rw [hnd] at hent
    rw [leafEntries, if_pos hl] at hent
    rw [← List.take_append_drop s.t (nd.keys.zip nd.vals), List.mem_append] at hent
    rcases hent with hent | hent
    · have hA : ((s.nodes ++
          [(⟨true, nd.keys.drop s.t, nd.vals.drop s.t, [], nx, some j⟩ : BNode K V)]).set j
          ⟨true, nd.keys.take s.t, nd.vals.take s.t, nd.children,
           some s.nodes.length, nd.prev⟩)[j]? =
          some ⟨true, nd.keys.take s.t, nd.vals.take s.t, nd.children,
                some s.nodes.length, nd.prev⟩ :=
        List.getElem?_set_self (by simp [List.length_append]; omega)
      refine ⟨_, List.getElem?_mem hA, ?_⟩
      rw [leafEntries, if_pos rfl]
      rw [zip_take_eq] at hent
      exact hent
    · have hB : ((s.nodes ++
          [(⟨true, nd.keys.drop s.t, nd.vals.drop s.t, [], nx, some j⟩ : BNode K V)]).set j
          ⟨true, nd.keys.take s.t, nd.vals.take s.t, nd.children,
           some s.nodes.length, nd.prev⟩)[s.nodes.length]? =
          some ⟨true, nd.keys.drop s.t, nd.vals.drop s.t, [], nx, some j⟩ := by
        rw [List.getElem?_set_ne (by omega), List.getElem?_concat_length]
      refine ⟨_, List.getElem?_mem hB, ?_⟩
      rw [leafEntries, if_pos rfl]
      rw [zip_drop_eq] at hent
      exact hent
  · have hC : ((s.nodes ++
        [(⟨true, nd.keys.drop s.t, nd.vals.drop s.t, [], nx, some lid⟩ : BNode K V)]).set lid
        ⟨true, nd.keys.take s.t, nd.vals.take s.t, nd.children,
         some s.nodes.length, nd.prev⟩)[j]? = some nd0 := by
      rw [List.getElem?_set_ne (Ne.symm hij), List.getElem?_append_left hj,
        List.getElem?_eq_getElem hj, hnd0]
    exact ⟨nd0, List.getElem?_mem hC, hent⟩

/-- Every entry of the heap survives `splitLeafNode`: the first `t` stay in
the old leaf, the rest move to the freshly allocated leaf, nothing is
destroyed (the `prev` fix-up of the old right neighbour touches no entry). -/
theorem allEntries_splitLeafNode {K V : Type} (s : BState K V) (lid : Nat) :
    ∀ e ∈ allEntries s, e ∈ allEntries (splitLeafNode s lid).1 := by
  intro e he
  rw [splitLeafNode]
  match hget : getNode s lid with
  | none => simpa only [hget] using he
  | some nd =>
    by_cases hl : nd.isLeaf = true
    case neg => simp only [hget, hl, Bool.false_eq_true, if_false]; exact he
    case pos =>
    match hk : nd.keys[s.t]? with
    | none => simpa only [hget, hl, if_true, hk] using he
    | some pushKey =>
      simp only [hget, hl, if_true, hk]
      cases hnx : nd.next with
      | none => exact split_core_superset s lid nd none hget hl e he
      | some nxt =>
        have hcore := split_core_superset s lid nd (some nxt) hget hl e he
        dsimp only
        cases hgn : getNode (setNode
            (allocNode s ⟨true, nd.keys.drop s.t, nd.vals.drop s.t, [],
              some nxt, some lid⟩).1 lid
            ⟨true, nd.keys.take s.t, nd.vals.take s.t, nd.children,
             some s.nodes.length, nd.prev⟩) nxt with
        | none => exact hcore
        | some nnd =>
          rw [allEntries_setNode_eq _ _ nnd _ hgn (leafEntries_prev_irrelevant nnd _)]
          exact hcore

theorem allEntries_insertIntoInternal_eq {K V : Type} [LinearOrder K] (s : BState K V)
    (nid : Nat) (k : K) (rid : Nat) :
    allEntries (insertIntoInternal s nid k rid) = allEntries s := by
  rw [insertIntoInternal]
  match hget : getNode s nid with
  | none => rfl
  | some nd =>
    by_cases hl : nd.isLeaf = true
    · simp only [hl, if_true]
    · simp only [hl, Bool.false_eq_true, if_false]
      by_cases hlen : nd.keys.length < 2 * s.t - 1
      · rw [if_pos hlen]
        exact allEntries_setNode_eq s nid nd _ hget (by simp [leafEntries, hl])
      · rw [if_neg hlen]

theorem allEntries_nodes_append {K V : Type} (s2 : BState K V) (l : List (BNode K V))
    (nd : BNode K V) (h : s2.nodes = l ++ [nd]) :
    allEntries s2 = (l.map leafEntries).flatten ++ leafEntries nd := by
  rw [allEntries, h]
  simp

theorem allEntries_splitInternalNode_eq {K V : Type} (s : BState K V) (nid : Nat) :
    allEntries (splitInternalNode s nid).1 = allEntries s := by
  rw [splitInternalNode]
  match hget : getNode s nid with
  | none => rfl
  | some nd =>
    by_cases hl : nd.isLeaf = true
    · simp only [hget, hl, if_true]
    · simp only [hget, hl, Bool.false_eq_true, if_false]
      match hk : nd.keys[s.t - 1]? with
      | none => rfl
      | some pushKey =>
        dsimp only
        have hnid : nid < s.nodes.length := by
          rw [getNode] at hget
          exact (List.getElem?_eq_some.mp hget).1
        have hget2 : getNode (allocNode s ⟨false, nd.keys.drop s.t, [],
            nd.children.drop s.t, none, none⟩).1 nid = some nd := by
          show (s.nodes ++ [_])[nid]? = some nd
          rw [List.getElem?_append_left hnid]
          exact hget
        rw [allEntries_setNode_eq _ nid nd _ hget2 (by simp [leafEntries, hl]),
          allEntries_nodes_append _ s.nodes _ rfl]
        simp [allEntries, leafEntries]

theorem allEntries_insertIntoParentAux_eq {K V : Type} [LinearOrder K] :
    ∀ (f : Nat) (s : BState K V) (nid : Nat) (k : K) (rid : Nat),
      allEntries (insertIntoParentAux f s nid k rid) = allEntries s := by
  intro f
  induction f with
  | zero => intro s nid k rid; rfl
  | succ f ih =>
    intro s nid k rid
    rw [insertIntoParentAux]
    by_cases hroot : s.root = nid
    · rw [if_pos hroot]
      dsimp only
      rw [allEntries_nodes_append _ s.nodes _ rfl]
      simp [allEntries, leafEntries]
    · rw [if_neg hroot]
      cases hfp : findParentAux s k nid (s.nodes.length + 1) s.root with
      | none => rfl
      | some pid =>
        dsimp only
        cases hg : getNode s pid with
        | none => rfl
        | some pnd =>
          dsimp only
          by_cases hlen : pnd.keys.length < 2 * s.t - 1
          · rw [if_pos hlen]
            exact allEntries_insertIntoInternal_eq s pid k rid
          · rw [if_neg hlen]
            have hsplit := allEntries_splitInternalNode_eq s pid
            cases hsp : splitInternalNode s pid with
            | mk s1 o =>
              rw [hsp] at hsplit
              cases o with
              | none => exact hsplit
              | some pr =>
                dsimp only
                rw [ih]
                exact hsplit

theorem allEntries_insertIntoLeaf_superset {K V : Type} [LinearOrder K] (s : BState K V)
    (lid : Nat) (k : K) (v : V) (hp : PairedLeaves s) :
    ∀ e ∈ allEntries s, e ∈ allEntries (insertIntoLeaf s lid k v) := by
  intro e he
  rw [insertIntoLeaf]
  match hget : getNode s lid with
  | none => exact he
  | some nd =>
    by_cases hl : nd.isLeaf = true
    case neg => simp only [hget, hl, Bool.false_eq_true, if_false]; exact he
    case pos =>
    by_cases hlen : nd.keys.length < 2 * s.t - 1
    case neg => simp only [hget, hl, if_true, if_neg hlen]; exact he
    case pos =>
    simp only [hget, hl, if_true, if_pos hlen]
    refine allEntries_setNode_superset s lid nd _ hget ?_ e he
    intro x hx
    rw [leafEntries, if_pos hl] at hx
    rw [leafEntries]
    simp only [hl, if_true]
    exact zip_insAt_mem k v _ nd.keys nd.vals
      (hp nd (List.getElem?_mem hget) hl) x hx

/-- No completed `insertBPlusTree` call erases an entry: every key/value
pair stored in some leaf before the call is still stored in some leaf
afterwards (on every path: empty-root write, duplicate rejection, in-place
insert, and the split path with its propagation to the parent). -/
theorem allEntries_insert_superset {K V : Type} [LinearOrder K] (s : BState K V)
    (k : K) (v : V) (hp : PairedLeaves s) :
    ∀ e ∈ allEntries s, e ∈ allEntries (insertBPlusTree s k v).1 := by
  intro e he
  rw [insertBPlusTree]
  cases hr : getNode s s.root with
  | none => exact he
  | some rootNd =>
    dsimp only
    by_cases hguard : rootNd.keys.length = 0 ∧ rootNd.isLeaf = true
    · rw [if_pos hguard]
      refine allEntries_setNode_superset s s.root rootNd _ hr ?_ e he
      intro x hx
      rw [leafEntries, if_pos hguard.2, List.eq_nil_of_length_eq_zero hguard.1] at hx
      cases hx
    · rw [if_neg hguard]
      cases hf : findLeaf s k with
      | none => exact he
      | some lid =>
        dsimp only
        cases hg : getNode s lid with
        | none => exact he
        | some leafNd =>
          dsimp only
          by_cases hdup : (leafNd.keys.any fun x => k = x) = true
          · rw [if_pos hdup]; exact he
          · rw [if_neg hdup]
            by_cases hlen : leafNd.keys.length < 2 * s.t - 1
            · rw [if_pos hlen]
              exact allEntries_insertIntoLeaf_superset s lid k v hp e he
            · rw [if_neg hlen]
              have hsplit := allEntries_splitLeafNode s lid e he
              cases hsp : splitLeafNode s lid with
              | mk s1 o =>
                rw [hsp] at hsplit
                cases o with
                | none => exact hsplit
                | some pr =>
                  dsimp only
                  rw [allEntries_insertIntoParentAux_eq]
                  exact hsplit

theorem leafKeys_of_entries {K V : Type} (nd : BNode K V) :
    leafKeys nd = if nd.isLeaf = true then nd.keys else [] := rfl

theorem mem_allLeafKeys_iff {K V : Type} (s : BState K V) (k0 : K) :
    k0 ∈ allLeafKeys s ↔ ∃ nd ∈ s.nodes, k0 ∈ leafKeys nd := by
  simp [allLeafKeys, List.mem_flatten]

/-- Keys-level corollary of `allEntries_insert_superset`. -/
theorem allLeafKeys_insert_superset {K V : Type} [LinearOrder K] (s : BState K V)
    (k : K) (v : V) (hp : PairedLeaves s) :
    ∀ k0 ∈ allLeafKeys s, k0 ∈ allLeafKeys (insertBPlusTree s k v).1 := by
  intro k0 hk0
  rw [mem_allLeafKeys_iff] at hk0 ⊢
  obtain ⟨nd, hmem, hkey⟩ := hk0
  rw [leafKeys_of_entries] at hkey
  by_cases hl : nd.isLeaf = true
  case neg => rw [if_neg hl] at hkey; cases hkey
  case pos =>
  rw [if_pos hl] at hkey
  obtain ⟨j, hj, hget⟩ := List.mem_iff_getElem.mp hkey
  have hjv : j < nd.vals.length := by
    rw [← hp nd hmem hl]; exact hj
  have hentry : (k0, nd.vals[j]) ∈ allEntries s := by
    rw [mem_allEntries_iff]
    refine ⟨nd, hmem, ?_⟩
    rw [leafEntries, if_pos hl]
    have hz : j < (nd.keys.zip nd.vals).length := by
      rw [List.length_zip]; omega
    have : (nd.keys.zip nd.vals)[j] = (nd.keys[j], nd.vals[j]) := List.getElem_zip ..
    rw [← hget]
    exact this ▸ List.getElem_mem hz
  have hafter := allEntries_insert_superset s k v hp _ hentry
  rw [mem_allEntries_iff] at hafter
  obtain ⟨nd', hmem', hent'⟩ := hafter
  refine ⟨nd', hmem', ?_⟩
  rw [leafEntries] at hent'
  by_cases hl' : nd'.isLeaf = true
  · rw [if_pos hl'] at hent'
    rw [leafKeys_of_entries, if_pos hl']
    exact (List.of_mem_zip hent').1
  · rw [if_neg hl'] at hent'
    cases hent'

theorem allLeafKeys_setNode_eq {K V : Type} (s : BState K V) (i : Nat)
    (nd nd' : BNode K V) (hget : getNode s i = some nd)
    (heq : leafKeys nd' = leafKeys nd) :
    allLeafKeys (setNode s i nd') = allLeafKeys s := by
  rw [allLeafKeys, allLeafKeys, setNode]
  have h1 : (s.nodes.set i nd').map leafKeys =
      (s.nodes.map leafKeys).set i (leafKeys nd') := List.map_set ..
  rw [h1, heq, set_getElem?_self]
  rw [List.getElem?_map, getNode] at *
  rw [hget]
  rfl

/-- Operation `updateData` (mutation of one stored value through the search pointer)
never changes the keys stored in the heap. -/
theorem allLeafKeys_updateData_eq {K V : Type} [LinearOrder K] (s : BState K V)
    (k : K) (f : V → V) : allLeafKeys (updateData s k f) = allLeafKeys s := by
  rw [updateData]
  cases hf : findLeaf s k with
  | none => rfl
  | some lid =>
    dsimp only
    cases hg : getNode s lid with
    | none => rfl
    | some nd =>
      dsimp only
      cases hi : nd.keys.findIdx? (fun x => k = x) with
      | none => rfl
      | some i =>
        dsimp only
        cases hv : nd.vals[i]? with
        | none => rfl
        | some oldv =>
          dsimp only
          exact allLeafKeys_setNode_eq s lid nd _ hg (by simp [leafKeys])

theorem findLeafAux_shape_eq {K V : Type} [LinearOrder K] {s s2 : BState K V} (key : K)
    (hsh : s2.nodes.map nodeShape = s.nodes.map nodeShape) :
    ∀ (f nid : Nat), findLeafAux s2 key f nid = findLeafAux s key f nid := by
  intro f
  induction f with
  | zero => intro nid; rfl
  | succ f ih =>
    intro nid
    have hopt : Option.map nodeShape (getNode s2 nid) =
        Option.map nodeShape (getNode s nid) := by
      rw [getNode, getNode, ← List.getElem?_map, ← List.getElem?_map, hsh]
    rw [findLeafAux, findLeafAux]
    cases hg2 : getNode s2 nid with
    | none =>
      cases hg : getNode s nid with
      | none => rfl
      | some nd => rw [hg2, hg] at hopt; cases hopt
    | some nd2 =>
      cases hg : getNode s nid with
      | none => rw [hg2, hg] at hopt; cases hopt
      | some nd =>
        rw [hg2, hg] at hopt
        injection hopt with hopt
        rw [nodeShape, nodeShape, Prod.ext_iff, Prod.ext_iff, Prod.ext_iff] at hopt
        obtain ⟨h1, h2, h3, h4⟩ := hopt
        dsimp only at h1 h2 h3 h4 ⊢
        rw [h1, h2, h3]
        by_cases hl : nd.isLeaf = true
        · rw [if_pos hl, if_pos hl]
        · rw [if_neg hl, if_neg hl]
          cases nd.children[descendIdx key nd.keys]? with
          | none => rfl
          | some c => exact ih c

/-- Mutating the stored value under `key` through the search pointer leaves
the descent unchanged, so a subsequent search of the same key returns
exactly the mutated value. -/
theorem search_updateData_self {K V : Type} [LinearOrder K] (s : BState K V) (k : K)
    (f : V → V) (v : V) (h : searchBPlusTree s k = some v) :
    searchBPlusTree (updateData s k f) k = some (f v) := by
  rw [searchBPlusTree] at h
  cases hfl : findLeaf s k with
  | none => rw [hfl] at h; cases h
  | some lid =>
    rw [hfl] at h
    dsimp only at h
    cases hg : getNode s lid with
    | none => rw [hg] at h; cases h
    | some nd =>
      rw [hg] at h
      dsimp only at h
      cases hi : nd.keys.findIdx? (fun x => k = x) with
      | none => rw [hi] at h; cases h
      | some i =>
        rw [hi] at h
        dsimp only at h
        cases hv : nd.vals[i]? with
        | none => rw [hv] at h; cases h
        | some v0 =>
          rw [hv] at h
          injection h with h
          subst h
          have hupd : updateData s k f =
              setNode s lid ⟨nd.isLeaf, nd.keys, nd.vals.set i (f v0), nd.children,
                nd.next, nd.prev⟩ := by
            rw [updateData, hfl]
            dsimp only
            rw [hg]
            dsimp only
            rw [hi]
            dsimp only
            rw [hv]
          have hlid : lid < s.nodes.length := by
            rw [getNode] at hg
            exact (List.getElem?_eq_some.mp hg).1
          have hsh : (setNode s lid ⟨nd.isLeaf, nd.keys, nd.vals.set i (f v0), nd.children,
              nd.next, nd.prev⟩).nodes.map nodeShape = s.nodes.map nodeShape := by
            rw [setNode]
            dsimp only
            rw [List.map_set]
            apply set_getElem?_self
            rw [List.getElem?_map, getNode] at *
            rw [hg]
            rfl
          have hlen : (setNode s lid ⟨nd.isLeaf, nd.keys, nd.vals.set i (f v0), nd.children,
              nd.next, nd.prev⟩).nodes.length = s.nodes.length := by
            rw [setNode]
            dsimp only
            rw [List.length_set]
          have hfl2 : findLeafAux s k (s.nodes.length + 1) s.root = some lid := hfl
          rw [hupd, searchBPlusTree, findLeaf, hlen,
            show (setNode s lid (⟨nd.isLeaf, nd.keys, nd.vals.set i (f v0), nd.children,
              nd.next, nd.prev⟩ : BNode K V)).root = s.root from rfl,
            findLeafAux_shape_eq k hsh, hfl2]
          dsimp only
          have hg2 : getNode (setNode s lid ⟨nd.isLeaf, nd.keys, nd.vals.set i (f v0),
              nd.children, nd.next, nd.prev⟩) lid =
              some ⟨nd.isLeaf, nd.keys, nd.vals.set i (f v0), nd.children,
                nd.next, nd.prev⟩ := by
            rw [getNode, setNode]
            exact List.getElem?_set_self hlid
          rw [hg2]
          dsimp only
          rw [hi]
          dsimp only
          have hiv : i < nd.vals.length := (List.getElem?_eq_some.mp hv).1
          rw [List.getElem?_set_self hiv]

/-- Operation `handleVehicleEntry` never removes a key from the vehicle index: the
existing-vehicle path only mutates stored records, the new-vehicle path
inserts. -/
theorem entry_vt_keys_superset (vt : BState String Vehicle) (st : BState Int ParkingSpace)
    (vnum owner : String) (now : Int) (hpvt : PairedLeaves vt) :
    ∀ k0 ∈ allLeafKeys vt, k0 ∈ allLeafKeys (handleVehicleEntry vt st vnum owner now).1 := by
  intro k0 hk0
  rw [handleVehicleEntry]
  cases hs : searchBPlusTree vt vnum with
  | some v =>
    dsimp only
    by_cases hprk : v.current_parking_space_id ≠ -1
    · rw [if_pos hprk]; exact hk0
    · rw [if_neg hprk]
      by_cases hsid : findAvailableSpace st v.membership = -1
      · rw [if_pos hsid]; exact hk0
      · rw [if_neg hsid]
        cases hps : searchBPlusTree st (findAvailableSpace st v.membership) with
        | none => exact hk0
        | some ps =>
          dsimp only
          by_cases hst : ps.status = 0
          · rw [if_pos hst]
            dsimp only
            rw [allLeafKeys_updateData_eq]
            exact hk0
          · rw [if_neg hst]; exact hk0
  | none =>
    by_cases hsid : findAvailableSpace st MembershipType.noMembership = -1
    · rw [if_pos hsid]; exact hk0
    · rw [if_neg hsid]
      cases hps : searchBPlusTree st (findAvailableSpace st MembershipType.noMembership) with
      | none => exact hk0
      | some ps =>
        dsimp only
        by_cases hst : ps.status = 0
        · rw [if_pos hst]
          dsimp only
          exact allLeafKeys_insert_superset vt vnum _ hpvt k0 hk0
        · rw [if_neg hst]; exact hk0

/-- Operation `handleVehicleEntry` never changes the keys of the space index. -/
theorem entry_st_keys_eq (vt : BState String Vehicle) (st : BState Int ParkingSpace)
    (vnum owner : String) (now : Int) :
    allLeafKeys (handleVehicleEntry vt st vnum owner now).2 = allLeafKeys st := by
  rw [handleVehicleEntry]
  cases hs : searchBPlusTree vt vnum with
  | some v =>
    dsimp only
    by_cases hprk : v.current_parking_space_id ≠ -1
    · rw [if_pos hprk]
    · rw [if_neg hprk]
      by_cases hsid : findAvailableSpace st v.membership = -1
      · rw [if_pos hsid]
      · rw [if_neg hsid]
        cases hps : searchBPlusTree st (findAvailableSpace st v.membership) with
        | none => rfl
        | some ps =>
          dsimp only
          by_cases hst : ps.status = 0
          · rw [if_pos hst]
            dsimp only
            rw [allLeafKeys_updateData_eq]
          · rw [if_neg hst]
  | none =>
    by_cases hsid : findAvailableSpace st MembershipType.noMembership = -1
    · rw [if_pos hsid]
    · rw [if_neg hsid]
      cases hps : searchBPlusTree st (findAvailableSpace st MembershipType.noMembership) with
      | none => rfl
      | some ps =>
        dsimp only
        by_cases hst : ps.status = 0
        · rw [if_pos hst]
          dsimp only
          rw [allLeafKeys_updateData_eq]
        · rw [if_neg hst]

/-- Operation `handleVehicleExit` changes no key of either index: it only rewrites the
two stored records through the search pointers. -/
theorem exit_keys_eq (vt : BState String Vehicle) (st : BState Int ParkingSpace)
    (vnum : String) (dep : Int) :
    allLeafKeys (handleVehicleExit vt st vnum dep).1 = allLeafKeys vt ∧
    allLeafKeys (handleVehicleExit vt st vnum dep).2 = allLeafKeys st := by
  rw [handleVehicleExit]
  cases hs : searchBPlusTree vt vnum with
  | none => exact ⟨rfl, rfl⟩
  | some v =>
    dsimp only
    by_cases hprk : v.current_parking_space_id = -1 ∨ v.arrival_time = 0
    · rw [if_pos hprk]
      exact ⟨rfl, rfl⟩
    · rw [if_neg hprk]
      dsimp only
      constructor
      · rw [allLeafKeys_updateData_eq]
      · cases hps : searchBPlusTree st v.current_parking_space_id with
        | none => rfl
        | some ps =>
          dsimp only
          rw [allLeafKeys_updateData_eq]

/-- On the successful exit path, the freed space record and the vehicle
record are mutated in place and still found by search. -/
theorem exit_clears (vt : BState String Vehicle) (st : BState Int ParkingSpace)
    (vnum : String) (dep : Int) (w : Vehicle)
    (hw : searchBPlusTree vt vnum = some w)
    (hparked : ¬(w.current_parking_space_id = -1 ∨ w.arrival_time = 0)) :
    (searchBPlusTree (handleVehicleExit vt st vnum dep).1 vnum).map
        Vehicle.current_parking_space_id = some (-1) ∧
    ∀ ps, searchBPlusTree st w.current_parking_space_id = some ps →
      (searchBPlusTree (handleVehicleExit vt st vnum dep).2
          w.current_parking_space_id).map
        (fun p => (p.status, p.parked_vehicle_num)) = some ((0 : Int), "") := by
  rw [handleVehicleExit, hw]
  dsimp only
  rw [if_neg hparked]
  dsimp only
  constructor
  · rw [search_updateData_self vt vnum _ w hw]
    simp
  · intro ps hps
    rw [hps]
    dsimp only
    rw [search_updateData_self st w.current_parking_space_id _ ps hps]
    simp

/-- C9: no public operation removes an entry from either index.  A completed
`insertBPlusTree` keeps every stored key/value pair; `handleVehicleEntry`
can only grow the vehicle index's key set and leaves the space index's keys
unchanged; `handleVehicleExit` leaves the key sets of both indexes exactly
as they were, merely clearing fields on the two stored records — the space
status returns to free with an empty parked-vehicle number, and the
vehicle's current space id becomes `-1`.  (`searchBPlusTree`,
`collectVehiclesSorted`-style scans and the report builders take the state
and return data: by their types they cannot mutate an index.) -/
theorem claim_C9 {K V : Type} [LinearOrder K] (s : BState K V) (k : K) (v : V)
    (hp : PairedLeaves s)
    (vt : BState String Vehicle) (st : BState Int ParkingSpace)
    (hpvt : PairedLeaves vt)
    (vnum owner : String) (now dep : Int) :
    (∀ e ∈ allEntries s, e ∈ allEntries (insertBPlusTree s k v).1) ∧
    (∀ k0 ∈ allLeafKeys vt,
        k0 ∈ allLeafKeys (handleVehicleEntry vt st vnum owner now).1) ∧
    allLeafKeys (handleVehicleEntry vt st vnum owner now).2 = allLeafKeys st ∧
    allLeafKeys (handleVehicleExit vt st vnum dep).1 = allLeafKeys vt ∧
    allLeafKeys (handleVehicleExit vt st vnum dep).2 = allLeafKeys st ∧
    (∀ w, searchBPlusTree vt vnum = some w →
      ¬(w.current_parking_space_id = -1 ∨ w.arrival_time = 0) →
      (searchBPlusTree (handleVehicleExit vt st vnum dep).1 vnum).map
          Vehicle.current_parking_space_id = some (-1) ∧
      ∀ ps, searchBPlusTree st w.current_parking_space_id = some ps →
        (searchBPlusTree (handleVehicleExit vt st vnum dep).2
            w.current_parking_space_id).map
          (fun p => (p.status, p.parked_vehicle_num)) = some ((0 : Int), "")) :=
  ⟨allEntries_insert_superset s k v hp,
   entry_vt_keys_superset vt st vnum owner now hpvt,
   entry_st_keys_eq vt st vnum owner now,
   (exit_keys_eq vt st vnum dep).1,
   (exit_keys_eq vt st vnum dep).2,
   fun w hw hparked => exit_clears vt st vnum dep w hw hparked⟩

/-- Witness for C9 at concrete states: an insert into `c5s1`, plus an entry
and an exit against the one-vehicle/two-space system. -/
theorem claim_C9_witness :
    (∀ e ∈ allEntries c5s1, e ∈ allEntries (insertBPlusTree c5s1 (2 : Int) 20).1) ∧
    (∀ k0 ∈ allLeafKeys c9vt,
        k0 ∈ allLeafKeys (handleVehicleEntry c9vt c9st "KA01" "Alice" 1000).1) ∧
    allLeafKeys (handleVehicleEntry c9vt c9st "KA01" "Alice" 1000).2 = allLeafKeys c9st ∧
    allLeafKeys (handleVehicleExit c9vt c9st "KA01" 8200).1 = allLeafKeys c9vt ∧
    allLeafKeys (handleVehicleExit c9vt c9st "KA01" 8200).2 = allLeafKeys c9st ∧
    (∀ w, searchBPlusTree c9vt "KA01" = some w →
      ¬(w.current_parking_space_id = -1 ∨ w.arrival_time = 0) →
      (searchBPlusTree (handleVehicleExit c9vt c9st "KA01" 8200).1 "KA01").map
          Vehicle.current_parking_space_id = some (-1) ∧
      ∀ ps, searchBPlusTree c9st w.current_parking_space_id = some ps →
        (searchBPlusTree (handleVehicleExit c9vt c9st "KA01" 8200).2
            w.current_parking_space_id).map
          (fun p => (p.status, p.parked_vehicle_num)) = some ((0 : Int), "")) :=
  claim_C9 c5s1 2 20 (by unfold PairedLeaves; decide) c9vt c9st
    (by unfold PairedLeaves; decide) "KA01" "Alice" 1000 8200
